import Mathlib

/-!
# Verification of the POD generation/publish pipeline

Shallow embedding of the core orchestration code of the shopify-pod-app
repository:

* `backend/src/services/podPipelineService.js` (`PodPipelineService`)
* `backend/src/utils/retry.js` (`retryWithBackoff`)
* the finalize / retry-publish / revise route handlers (`createPodRouter`)

External collaborators (HTTP transport, file system, repositories, the
analytics sink) are modelled as injected oracles: every network call the
code makes is represented by the oracle's answer for that call, and the
model records which provider calls were issued and which cost-tracking
events fired, so that "no provider call is made" and "the counter is
incremented" become provable statements about the returned traces.

JavaScript strings are modelled as Lean `String`s; JS truthiness on
strings is emptiness, `null`/`undefined` string fields are `Option`s or
the empty string, and `Date.now()` is an explicit `now : Nat` input.
-/

namespace PodApp

/-! ## JavaScript string primitives -/

/-- `String.prototype.trim` on the character list: drop whitespace from
both ends (whitespace restricted to the ASCII class, which covers every
key and flag string the code compares against). -/
def jsTrimList (cs : List Char) : List Char :=
  ((cs.dropWhile Char.isWhitespace).reverse.dropWhile Char.isWhitespace).reverse

/-- `String.prototype.trim`. -/
def jsTrim (s : String) : String :=
  ⟨jsTrimList s.data⟩

/-- `String.prototype.slice(0, n)`. -/
def jsSlice (s : String) (n : Nat) : String :=
  ⟨s.data.take n⟩

/-- JS `a || b` for string-valued expressions: the left operand unless it
is falsy (empty). -/
def jsOr (a b : String) : String :=
  if a = "" then b else a

/-- JS `a || b` where the left operand is an optional string field
(`undefined`/`null`/`""` are all falsy). -/
def jsOrOpt (a : Option String) (b : String) : String :=
  match a with
  | none => b
  | some s => jsOr s b

/-- Contiguous-sublist test on character lists. -/
def listContainsSeq (sub : List Char) : List Char → Bool
  | [] => sub.isEmpty
  | c :: rest => sub.isPrefixOf (c :: rest) || listContainsSeq sub rest

/-- `String.prototype.includes`. -/
def jsIncludes (s sub : String) : Bool :=
  listContainsSeq sub.data s.data

/-- `encodeURIComponent`: keep unreserved characters, percent-encode the
UTF-8 bytes of everything else. -/
def uriUnreserved (c : Char) : Bool :=
  c.isAlphanum || c = '-' || c = '_' || c = '.' || c = '!' || c = '~' ||
    c = '*' || c.toNat = 39 || c = '(' || c = ')'

def hexDigitChar (n : Nat) : Char :=
  (("0123456789ABCDEF").data.getD n '0')

def percentByte (b : Nat) : List Char :=
  ['%', hexDigitChar (b / 16), hexDigitChar (b % 16)]

/-- UTF-8 bytes of one character, as `Nat`s. -/
def utf8Bytes (c : Char) : List Nat :=
  let n := c.toNat
  if n < 0x80 then [n]
  else if n < 0x800 then
    [0xC0 + n / 64, 0x80 + n % 64]
  else if n < 0x10000 then
    [0xE0 + n / 4096, 0x80 + (n / 64) % 64, 0x80 + n % 64]
  else
    [0xF0 + n / 262144, 0x80 + (n / 4096) % 64, 0x80 + (n / 64) % 64, 0x80 + n % 64]

def encodeURIComponent (s : String) : String :=
  ⟨s.data.flatMap fun c =>
    if uriUnreserved c then [c] else (utf8Bytes c).flatMap percentByte⟩

/-! ## `PodPipelineService.isUsableApiKey` (podPipelineService.js 248-259) -/

/-- Lines 248-259: trim the key; empty keys and keys starting with the
test prefixes `kei_test_` / `openai_test_` are unusable. -/
def isUsableApiKey (value : String) : Bool :=
  let key := jsTrimList value.data
  if key.isEmpty then false
  else if "kei_test_".data.isPrefixOf key || "openai_test_".data.isPrefixOf key then
    false
  else true

/-! ## `retryWithBackoff` (retry.js 12-42)

The wrapped function is an oracle `fn : Nat → Except ε α` giving the
outcome of the attempt with that 0-indexed number, and `Math.random()` is
an oracle `rand : Nat → ℚ` giving the random draw used after the attempt
with that number fails.  The run records the overall result, how many
times the wrapped function was invoked, and each backoff sleep as a pair
(failed attempt index, delay in ms). -/

structure RetryRun (ε α : Type) where
  result : Except ε α
  fnCalls : Nat
  delays : List (Nat × ℚ)
  deriving Repr

/-- One pass of the `for (attempt = 0; attempt <= maxRetries; ...)` loop,
with explicit fuel (the number of loop iterations still allowed). -/
def retryGo {ε α : Type} (fn : Nat → Except ε α) (shouldRetry : ε → Nat → Bool)
    (maxRetries : Nat) (baseDelayMs : ℚ) (rand : Nat → ℚ) :
    Nat → Nat → List (Nat × ℚ) → RetryRun ε α
  | _, 0, acc =>
      -- unreachable in the source (`throw lastError` after the loop);
      -- the fuel always covers maxRetries+1 iterations
      { result := fn 0 |>.map id, fnCalls := 0, delays := acc }
  | attempt, fuel + 1, acc =>
      match fn attempt with
      | .ok a => { result := .ok a, fnCalls := attempt + 1, delays := acc }
      | .error e =>
          if attempt ≥ maxRetries || !shouldRetry e attempt then
            { result := .error e, fnCalls := attempt + 1, delays := acc }
          else
            let delay := baseDelayMs * 2 ^ attempt + rand attempt * 500
            retryGo fn shouldRetry maxRetries baseDelayMs rand (attempt + 1) fuel
              (acc ++ [(attempt, delay)])

/-- `retryWithBackoff(fn, { maxRetries, baseDelayMs, shouldRetry })`. -/
def retryWithBackoff {ε α : Type} (fn : Nat → Except ε α)
    (shouldRetry : ε → Nat → Bool) (maxRetries : Nat) (baseDelayMs : ℚ)
    (rand : Nat → ℚ) : RetryRun ε α :=
  retryGo fn shouldRetry maxRetries baseDelayMs rand 0 (maxRetries + 1) []

/-! ## Provider call and cost-tracking events

`_trackCost` (podPipelineService.js 27-31) forwards to
`this.analyticsService?.trackApiCall` — a no-op unless an analytics
service object is attached to the pipeline service.  The server
(`createServer`) constructs `new PodPipelineService(uploadsDir)` and never
assigns `analyticsService`, which the model captures with the
`hasAnalytics` flag of the service configuration. -/

structure CostEvent where
  provider : String
  model : String
  operation : String
  deriving Repr, DecidableEq

/-- Model of the pipeline-service object state relevant to cost tracking. -/
structure PipelineSvc where
  hasAnalytics : Bool
  deriving Repr

/-- `_trackCost`: emit the event only when an analytics service with a
`trackApiCall` method is attached. -/
def trackCost (svc : PipelineSvc) (e : CostEvent) : List CostEvent :=
  if svc.hasAnalytics then [e] else []

/-- Outward provider calls the pipeline can issue. -/
inductive ProviderEvent where
  | openAiEditRequest
  | openAiImageRequest
  | openAiCopyRequest
  | openAiExtractRequest
  | kieRequest
  | publishRequest
  deriving Repr, DecidableEq

/-! ## KIE secondary provider: `requestKieImage` (podPipelineService.js 142-246)

The HTTP submission and each status poll are oracles.  A JSON field that
may be a string or a number is a `JsVal`. -/

inductive JsVal where
  | str (s : String)
  | num (n : Int)
  deriving Repr, DecidableEq

/-- `Number(raw)` on the string shapes the flag decoding feeds it
(integer literals with optional sign; everything else is `NaN`, and the
empty/whitespace-only string is `0`). -/
def jsNumber (s : String) : Option Int :=
  let t := jsTrimList s.data
  if t.isEmpty then some 0
  else
    let (sign, digits) :=
      match t with
      | '-' :: rest => ((-1 : Int), rest)
      | '+' :: rest => ((1 : Int), rest)
      | _ => ((1 : Int), t)
    if digits.isEmpty || !digits.all Char.isDigit then none
    else some (sign * (String.mk digits).toNat!)

/-- `pickKieSuccessFlag` (lines 78-107): normalize the
`successFlag`/`success_flag`/`status` field (already coalesced into the
`raw` argument) into a numeric code; `none` is `null` (undecodable). -/
def pickKieSuccessFlag (raw : Option JsVal) : Option Int :=
  match raw with
  | none => none
  | some (.num n) => some n
  | some (.str s) =>
      let normalized := (jsTrim s).toUpper
      if normalized = "SUCCESS" then some 1
      else if normalized = "GENERATING" || normalized = "PENDING" ||
          normalized = "PROCESSING" then some 0
      else if normalized = "CREATE_TASK_FAILED" then some 2
      else if normalized = "GENERATE_FAILED" || normalized = "FAILED" ||
          normalized = "ERROR" then some 3
      else jsNumber s

/-- The decoded pieces of one status payload (`statusPayload?.data ||
statusPayload`): the coalesced raw flag and the result of
`pickKieResultImage` over the payload's several possible image fields. -/
structure KieStatusData where
  rawFlag : Option JsVal
  imageUrl : Option String
  payloadMsg : Option String
  deriving Repr

/-- `errorMessage || error_message || msg || "KIE reported task failure"`,
pre-coalesced into one optional string. -/
def pickKieErrorMessage (payloadMsg : Option String) : String :=
  jsOrOpt payloadMsg "KIE reported task failure"

/-- One answer of the status endpoint (lines 209-223): a non-2xx HTTP
response, a payload with `code ≠ 200` (carrying its error-message
fields), or a decodable payload. -/
inductive KiePollStep where
  | httpError (status : Nat)
  | codeError (payloadMsg : Option String)
  | payload (d : KieStatusData)

/-- The answer of the submission call (lines 173-199). -/
inductive KieCreateStep where
  | httpError (status : Nat)
  | codeError (payloadMsg : Option String)
  | payload (taskId : Option String) (directImage : Option String)
      (payloadMsg : Option String)

/-- How `requestKieImage` ends: a returned image URL, a thrown error, or
the timeout throw of line 245 (a thrown `Error` whose distinguished
message reports the deadline; kept as a separate outcome). -/
inductive KieOutcome where
  | result (url : String)
  | thrown (msg : String)
  | timedOut
  deriving Repr, DecidableEq

structure KieRun where
  outcome : KieOutcome
  statusCalls : Nat
  costEvents : List CostEvent
  deriving Repr

/-- The cost event of an accepted KIE image (lines 195 and 230). -/
def kieCostEvent : CostEvent :=
  { provider := "kie", model := "image", operation := "generate" }

/-- The polling loop of lines 208-243, with the remaining attempts as
fuel; `attempt` is the index into the poll oracle. -/
def kiePollLoop (svc : PipelineSvc) (polls : Nat → KiePollStep) :
    Nat → Nat → Nat → KieRun
  | _, 0, calls => { outcome := .timedOut, statusCalls := calls, costEvents := [] }
  | attempt, fuel + 1, calls =>
      match polls attempt with
      | .httpError status =>
          { outcome := .thrown s!"KIE status check failed ({status})",
            statusCalls := calls + 1, costEvents := [] }
      | .codeError payloadMsg =>
          { outcome := .thrown (pickKieErrorMessage payloadMsg),
            statusCalls := calls + 1, costEvents := [] }
      | .payload d =>
          let successFlag := pickKieSuccessFlag d.rawFlag
          if (successFlag = some 1 || successFlag = some 200) && d.imageUrl.isSome then
            { outcome := .result (d.imageUrl.getD ""),
              statusCalls := calls + 1,
              costEvents := trackCost svc kieCostEvent }
          else if successFlag = some 2 || successFlag = some 3 then
            { outcome := .thrown (pickKieErrorMessage d.payloadMsg),
              statusCalls := calls + 1, costEvents := [] }
          else
            match d.imageUrl with
            | some url =>
                { outcome := .result url, statusCalls := calls + 1,
                  costEvents := [] }
            | none =>
                kiePollLoop svc polls (attempt + 1) fuel (calls + 1)

/-- `sleepMs` (line 205): the caller-supplied interval when positive,
else a per-endpoint default. -/
def kieSleepMs (pollIntervalMs : Nat) (is4o : Bool) : Nat :=
  if pollIntervalMs > 0 then pollIntervalMs else if is4o then 2500 else 2000

/-- `waitMs` (line 206). -/
def kieWaitMs (maxWaitMs : Nat) (is4o : Bool) : Nat :=
  if maxWaitMs > 0 then maxWaitMs else if is4o then 60000 else 45000

/-- `maxAttempts = Math.max(1, Math.floor(waitMs / sleepMs))` (line 207). -/
def kieMaxAttempts (waitMs sleepMs : Nat) : Nat :=
  max 1 (waitMs / sleepMs)

/-- `requestKieImage` from the submission response onward (lines 182-245);
the aspect-ratio/body construction does not affect control flow and is
not modelled.  The record-info URL derivation of line 144 always yields a
non-empty URL for the non-empty target URL the code defaults to, so the
line-202 guard never throws and polling proceeds whenever a task id is
returned. -/
def requestKieImage (svc : PipelineSvc) (create : KieCreateStep)
    (polls : Nat → KiePollStep) (maxWaitMs pollIntervalMs : Nat)
    (is4o : Bool) : KieRun :=
  match create with
  | .httpError status =>
      { outcome := .thrown s!"KIE image generation failed ({status})",
        statusCalls := 0, costEvents := [] }
  | .codeError payloadMsg =>
      { outcome := .thrown (pickKieErrorMessage payloadMsg),
        statusCalls := 0, costEvents := [] }
  | .payload taskId directImage payloadMsg =>
      match taskId with
      | none =>
          match directImage with
          | some url =>
              { outcome := .result url, statusCalls := 0,
                costEvents := trackCost svc kieCostEvent }
          | none =>
              { outcome := .thrown
                  s!"KIE returned no taskId. Message: {pickKieErrorMessage payloadMsg}",
                statusCalls := 0, costEvents := [] }
      | some _ =>
          let sleepMs := kieSleepMs pollIntervalMs is4o
          let waitMs := kieWaitMs maxWaitMs is4o
          kiePollLoop svc polls 0 (kieMaxAttempts waitMs sleepMs) 0

/-! ## OpenAI primary provider calls (podPipelineService.js 414-579)

`generateOpenAiImage` / `generateOpenAiImageEdit` catch every error and
return `null` on any failure, so each is modelled as its unusable-key /
missing-reference guard followed by an oracle for the body's outcome
(`none` = any of the body's failure paths).  A provider event is emitted
exactly when the guard passes, i.e. when the body — which starts with a
network request — runs. -/

def jsBoolStr (b : Bool) : String :=
  if b then "true" else "false"

/-- `generateOpenAiImageEdit` (lines 478-579): guard of line 479, then
the body as an oracle. -/
def generateOpenAiImageEdit (openAiApiKey referenceImageUrl : String)
    (bodyOutcome : Option String) : Option String × List ProviderEvent :=
  if !isUsableApiKey openAiApiKey || jsTrim referenceImageUrl = "" then
    (none, [])
  else
    (bodyOutcome, [.openAiEditRequest])

/-- `generateOpenAiImage` (lines 414-476): guard of line 415, then the
body as an oracle. -/
def generateOpenAiImage (openAiApiKey : String) (bodyOutcome : Option String) :
    Option String × List ProviderEvent :=
  if !isUsableApiKey openAiApiKey then
    (none, [])
  else
    (bodyOutcome, [.openAiImageRequest])

/-! ## `generateDesignImage` waterfall (podPipelineService.js 341-412) -/

structure GenImageResult where
  imageUrl : String
  provider : String
  providerMessage : String
  deriving Repr, DecidableEq

/-- Oracle answers for one `generateDesignImage` invocation. -/
structure DesignImageEnv where
  editOutcome : Option String
  genOutcome : Option String
  kieOutcome : Except String String

/-- The fallback placeholder of lines 383 and 407. -/
def designPlaceholder (artworkPrompt : String) : String :=
  "https://via.placeholder.com/1024?text=" ++
    encodeURIComponent (jsSlice artworkPrompt 48)

/-- The primary (OpenAI) tier of `generateDesignImage` (lines 342-366):
the computed image URL (with whether the edit path produced it) and the
calls issued. -/
def openAiDesignTier (openAiApiKey referenceImageUrl : String)
    (env : DesignImageEnv) : Option (String × Bool) × List ProviderEvent :=
  if isUsableApiKey openAiApiKey then
    let e1 :=
      if referenceImageUrl ≠ "" then
        generateOpenAiImageEdit openAiApiKey referenceImageUrl env.editOutcome
      else (none, [])
    let usedReferenceImage := e1.1.isSome
    let e2 :=
      if e1.1.isNone then generateOpenAiImage openAiApiKey env.genOutcome
      else (none, [])
    match e1.1.orElse (fun _ => e2.1) with
    | some url => (some (url, usedReferenceImage), e1.2 ++ e2.2)
    | none => (none, e1.2 ++ e2.2)
  else (none, [])

/-- `generateDesignImage` (lines 341-412). -/
def generateDesignImage (artworkPrompt openAiApiKey keiAiApiKey
    referenceImageUrl : String) (env : DesignImageEnv) :
    GenImageResult × List ProviderEvent :=
  let hasRef := referenceImageUrl ≠ ""
  match openAiDesignTier openAiApiKey referenceImageUrl env with
  | (some (url, usedReferenceImage), evs) =>
      let providerMessage :=
        if usedReferenceImage then
          "Live OpenAI image edit used. Reference image provided: true."
        else
          "Live OpenAI image generation used" ++
            (if hasRef then " without reference image" else "") ++
            s!". Reference image requested: {jsBoolStr hasRef}."
      ({ imageUrl := url, provider := "openai", providerMessage }, evs)
  | (none, evs) =>
      if !isUsableApiKey keiAiApiKey then
        ({ imageUrl := designPlaceholder artworkPrompt,
           provider := "fallback-no-key",
           providerMessage := "OpenAI image generation failed or key missing, and KEI API key is missing or invalid format." },
         evs)
      else
        match env.kieOutcome with
        | .ok url =>
            ({ imageUrl := url, provider := "kie",
               providerMessage := s!"Live KEI image generation used. Reference image provided: {jsBoolStr hasRef}." },
             evs ++ [.kieRequest])
        | .error msg =>
            ({ imageUrl := designPlaceholder artworkPrompt,
               provider := "fallback-error",
               providerMessage := s!"{msg} Reference image provided: {jsBoolStr hasRef}." },
             evs ++ [.kieRequest])

/-! ## `generateListingCopy` (podPipelineService.js 686-763) -/

/-- The fields the code reads from the JSON object the copy provider
returns; `none` models a missing/falsy field (for `tags`, a value that is
not an array). -/
structure ParsedCopy where
  title : Option String
  descriptionText : Option String
  tags : Option (List String)

/-- The copy-provider call's outcome: a thrown transport error, a non-2xx
response, or a 2xx payload whose message content parses (`some`) or fails
`JSON.parse` (`none`). -/
inductive CopyOutcome where
  | thrown (msg : String)
  | httpError (status : Nat)
  | ok (parsed : Option ParsedCopy)

structure ListingCopy where
  title : String
  descriptionHtml : String
  descriptionText : String
  tags : List String
  deriving Repr, DecidableEq

structure CopyResult where
  copy : ListingCopy
  provider : String
  providerMessage : String
  deriving Repr, DecidableEq

/-- The deterministic offline copy used by both the no-key branch (lines
688-697) and the error branch (lines 752-761). -/
def fallbackListingCopy (prompt productType : String) : ListingCopy :=
  { title := productType.toUpper ++ " - " ++ jsSlice prompt 45,
    descriptionHtml :=
      "<p>" ++ prompt ++ "</p><p>Professionally generated POD design and lifestyle visuals.</p>",
    descriptionText :=
      prompt ++ ". Professionally generated POD design and lifestyle visuals.",
    tags := ["ai-generated", "pod", productType] }

/-- `generateListingCopy` (lines 686-763).  The message of a
`JSON.parse` exception is environment text; it is modelled by a fixed
string, which no property depends on. -/
def generateListingCopy (prompt productType openAiApiKey : String)
    (outcome : CopyOutcome) : CopyResult × List ProviderEvent :=
  if !isUsableApiKey openAiApiKey then
    ({ copy := fallbackListingCopy prompt productType,
       provider := "fallback-no-key",
       providerMessage := "OpenAI API key is missing or invalid format." }, [])
  else
    let errorResult (msg : String) : CopyResult :=
      { copy := fallbackListingCopy prompt productType,
        provider := "fallback-error",
        providerMessage := msg }
    match outcome with
    | .thrown msg => (errorResult msg, [.openAiCopyRequest])
    | .httpError status =>
        (errorResult s!"OpenAI copy generation failed ({status})",
         [.openAiCopyRequest])
    | .ok none =>
        (errorResult "Unexpected token in JSON", [.openAiCopyRequest])
    | .ok (some parsed) =>
        let title :=
          jsTrim (jsOrOpt parsed.title (productType.toUpper ++ " - " ++ jsSlice prompt 45))
        let descriptionText :=
          jsTrim (jsOrOpt parsed.descriptionText
            (prompt ++ ". Professionally generated POD design and lifestyle visuals."))
        let tags :=
          match parsed.tags with
          | some ts => (ts.map jsTrim).filter (· ≠ "")
          | none => []
        ({ copy :=
             { title, descriptionHtml := "<p>" ++ descriptionText ++ "</p>",
               descriptionText,
               tags := if tags.isEmpty then ["ai-generated", "pod", productType] else tags },
           provider := "openai",
           providerMessage := "Live OpenAI copy generation used." },
         [.openAiCopyRequest])

/-! ## `generateLifestyleImages` (podPipelineService.js 581-684) -/

structure LifestyleResult where
  imageUrls : List String
  provider : String
  providerMessage : String
  deriving Repr, DecidableEq

/-- Oracle answers for one `generateLifestyleImages` invocation, indexed
by the position of the scene prompt being processed. -/
structure LifestyleEnv where
  editAt : Nat → Option String
  genAt : Nat → Option String
  kieAt : Nat → Except String String

/-- The three default scene prompts (lines 584-588). -/
def defaultLifestylePrompts (productType : String) : List String :=
  [s!"Place this exact {productType} product on a kitchen table in a bright room with natural daylight. Keep the product design exactly as shown in the reference image.",
   s!"Show this exact {productType} product in a clean, minimal flat-lay arrangement on a light surface. Keep the product design exactly as shown in the reference image.",
   s!"Show a person holding this exact {productType} product in a lifestyle setting. Keep the product design exactly as shown in the reference image."]

/-- `lifestylePrompts.map(trim).filter(Boolean)` when an array was
passed, else `[]` (lines 593-595). -/
def requestedPrompts (lifestylePrompts : Option (List String)) : List String :=
  match lifestylePrompts with
  | some items => (items.map jsTrim).filter (· ≠ "")
  | none => []

/-- The OpenAI loop of lines 600-629: per prompt, try the edit call when
a base image exists, fall back to plain generation; collect the non-null
results, the number produced by the edit path, and the calls issued. -/
def lifestyleOpenAiLoop (openAiApiKey baseDesignImageUrl : String)
    (env : LifestyleEnv) : List String → Nat →
    List String × Nat × List ProviderEvent
  | [], _ => ([], 0, [])
  | _ :: rest, i =>
      let e1 :=
        if baseDesignImageUrl ≠ "" then
          generateOpenAiImageEdit openAiApiKey baseDesignImageUrl (env.editAt i)
        else (none, [])
      let e2 :=
        if e1.1.isNone then generateOpenAiImage openAiApiKey (env.genAt i)
        else (none, [])
      let tail :=
        lifestyleOpenAiLoop openAiApiKey baseDesignImageUrl env rest (i + 1)
      let used := (if e1.1.isSome then 1 else 0) + tail.2.1
      match e1.1.orElse (fun _ => e2.1) with
      | some url => (url :: tail.1, used, e1.2 ++ e2.2 ++ tail.2.2)
      | none => (tail.1, used, e1.2 ++ e2.2 ++ tail.2.2)

/-- The KIE placeholder of lines 671-672 (prompt truncated to 45). -/
def lifestyleKiePlaceholder (prompt : String) : String :=
  "https://via.placeholder.com/1024?text=" ++
    encodeURIComponent (jsSlice prompt 45)

/-- The no-key placeholder of line 652 (prompt truncated to 60). -/
def lifestyleNoKeyPlaceholder (prompt : String) : String :=
  "https://via.placeholder.com/1024?text=" ++
    encodeURIComponent (jsSlice prompt 60)

/-- The per-prompt body of the KIE loop (lines 660-673): the request's
image on success, the placeholder when the request threw. -/
def kieSlot (env : LifestyleEnv) (i : Nat) (p : String) : String :=
  match env.kieAt i with
  | .ok u => u
  | .error _ => lifestyleKiePlaceholder p

/-- The KIE loop of lines 658-674: every prompt issues a request; a
thrown request is replaced by the placeholder. -/
def lifestyleKieLoop (env : LifestyleEnv) : List String → Nat →
    List String × List ProviderEvent
  | [], _ => ([], [])
  | p :: rest, i =>
      let tail := lifestyleKieLoop env rest (i + 1)
      (kieSlot env i p :: tail.1, .kieRequest :: tail.2)

/-- `generateLifestyleImages` (lines 581-684). -/
def generateLifestyleImages (productType baseDesignImageUrl openAiApiKey
    keiAiApiKey : String) (lifestylePrompts : Option (List String))
    (env : LifestyleEnv) : LifestyleResult × List ProviderEvent :=
  let prompts := requestedPrompts lifestylePrompts
  let promptsToUse := if prompts.isEmpty then defaultLifestylePrompts productType else prompts
  let openAiRun :=
    if isUsableApiKey openAiApiKey then
      lifestyleOpenAiLoop openAiApiKey baseDesignImageUrl env promptsToUse 0
    else ([], 0, [])
  let openAiResults := openAiRun.1
  let usedReferenceImageCount := openAiRun.2.1
  let openAiEvs := openAiRun.2.2
  if isUsableApiKey openAiApiKey ∧ openAiResults.length = promptsToUse.length then
    let total := promptsToUse.length
    let providerMessage :=
      if usedReferenceImageCount = total then
        "Live OpenAI lifestyle image edits used with reference design image for all results."
      else if usedReferenceImageCount > 0 then
        s!"Live OpenAI lifestyle generation used. Reference design image applied to {usedReferenceImageCount}/{total} results."
      else if baseDesignImageUrl ≠ "" then
        "Live OpenAI lifestyle generation used without reference design image (edit API unavailable for this request)."
      else
        "Live OpenAI lifestyle generation used."
    ({ imageUrls := openAiResults, provider := "openai", providerMessage },
     openAiEvs)
  else if !isUsableApiKey keiAiApiKey then
    ({ imageUrls := promptsToUse.map lifestyleNoKeyPlaceholder,
       provider := "fallback-no-key",
       providerMessage := "KEI API key is missing or invalid format." },
     openAiEvs)
  else
    let kieRun := lifestyleKieLoop env promptsToUse 0
    let results := kieRun.1
    let hadFallback := results.any (fun url => jsIncludes url "via.placeholder.com")
    ({ imageUrls := results,
       provider := if hadFallback then "mixed-fallback" else "kie",
       providerMessage :=
         if hadFallback then "Some lifestyle images fell back due to provider errors."
         else "Live KEI lifestyle generation used." },
     openAiEvs ++ kieRun.2)

/-! ## Design records (podPipelineService.js 847-868) -/

structure Design where
  id : String
  shopDomain : String
  prompt : String
  productType : String
  publishImmediately : Bool
  status : String
  artworkPrompt : String
  currentDesignAssetId : String
  revisionCount : Nat
  createdAt : Nat
  updatedAt : Nat
  finalizedAt : Option Nat
  shopifyProductId : String
  adminUrl : String
  previewImageUrl : String
  rawArtworkUrl : String
  deriving Repr, DecidableEq

/-- `createDesignRecord` (lines 847-868); the fresh `randomUUID` and
`Date.now()` are inputs (`createdBy` is carried through unexamined and is
not modelled). -/
def createDesignRecord (id shopDomain prompt productType : String)
    (publishImmediately : Bool) (artworkPrompt designImageUrl : String)
    (now : Nat) : Design :=
  { id, shopDomain, prompt, productType, publishImmediately,
    status := "preview_ready", artworkPrompt, currentDesignAssetId := "",
    revisionCount := 0, createdAt := now, updatedAt := now,
    finalizedAt := none, shopifyProductId := "", adminUrl := "",
    previewImageUrl := designImageUrl, rawArtworkUrl := designImageUrl }

/-- The fields of `assetStorageService.saveAsset` the handlers populate
(the fresh `id`/`createdAt` are not modelled). -/
structure AssetRecord where
  designId : String
  shopDomain : String
  type : String
  role : String
  url : String
  promptSnapshot : String
  deriving Repr, DecidableEq

/-- The effective settings the handlers read (`getEffectiveSettings`). -/
structure Settings where
  openAiApiKey : String
  keiAiApiKey : String
  kieEditUrl : String
  kieGenerateUrl : String
  stabilityApiKey : String

/-- What `publishService.publish` resolves to when it does not throw. -/
structure PublishedProduct where
  productId : String
  adminUrl : String
  deriving Repr, DecidableEq

/-- The product-repository record upserted by design id. -/
structure ProductRecord where
  designId : String
  shopDomain : String
  productId : String
  adminUrl : String
  publishImmediately : Bool
  updatedAt : Nat
  deriving Repr, DecidableEq

/-! ## The finalize handler (part_003 lines 1164-1442) -/

/-- `persistImageUrl` (lines 458-476): non-http(s) URLs are returned
unchanged; an http(s) URL goes through the download oracle, which
returns the stored `/uploads/` path or — on any fetch/disk failure — the
input URL itself. -/
def persistImageUrl (persistFetch : String → String) (url : String) : String :=
  if url.startsWith "http://" || url.startsWith "https://" then
    persistFetch url
  else url

/-- `extractArtwork` (podPipelineService.js 765-845): the guard of line
766, then the body (one OpenAI edit call chain, every failure caught to
`null`) as an oracle. -/
def extractArtwork (openAiApiKey designImageUrl : String)
    (bodyOutcome : Option String) : Option String × List ProviderEvent :=
  if !isUsableApiKey openAiApiKey || jsTrim designImageUrl = "" then
    (none, [])
  else
    (bodyOutcome, [.openAiExtractRequest])

/-- The request body of a finalize call, after the designId lookup. -/
structure FinalizeReq where
  publishImmediately : Option Bool
  lifestylePrompts : Option (List String)

/-- Oracle answers for one finalize invocation. -/
structure FinalizeEnv where
  settings : Settings
  lifestyle : LifestyleEnv
  fallbackEditAt : Nat → Option String
  fallbackGenAt : Nat → Option String
  persistFetch : String → String
  extractOutcome : Option String
  copyOutcome : CopyOutcome
  publishOutcome : Except String PublishedProduct
  now : Nat

structure LifestyleStage where
  images : List String
  provider : String
  providerMessage : String
  events : List ProviderEvent

/-- The step-1b loop of lines 1250-1271: per scene prompt, try an OpenAI
edit with the preview image as reference, then plain generation. -/
def finalizeFallbackLoop (openAiApiKey previewImageUrl : String)
    (env : FinalizeEnv) : List String → Nat → List String × List ProviderEvent
  | [], _ => ([], [])
  | _ :: rest, i =>
      let e1 :=
        generateOpenAiImageEdit openAiApiKey previewImageUrl (env.fallbackEditAt i)
      let e2 :=
        if e1.1.isNone then generateOpenAiImage openAiApiKey (env.fallbackGenAt i)
        else (none, [])
      let tail :=
        finalizeFallbackLoop openAiApiKey previewImageUrl env rest (i + 1)
      match e1.1.orElse (fun _ => e2.1) with
      | some url => (url :: tail.1, e1.2 ++ e2.2 ++ tail.2)
      | none => (tail.1, e1.2 ++ e2.2 ++ tail.2)

/-- Steps 1, 1b and 1c of the finalize handler (lines 1211-1294): run
`generateLifestyleImages` (a total function here, so the outer catch of
lines 1228-1236 is never taken), retry all scenes through the OpenAI
chain if neither live provider satisfied the request, then persist every
image. -/
def finalizeLifestyleStage (design : Design) (req : FinalizeReq)
    (env : FinalizeEnv) : LifestyleStage :=
  let requested := requestedPrompts req.lifestylePrompts
  let run1 :=
    generateLifestyleImages design.productType design.previewImageUrl
      env.settings.openAiApiKey env.settings.keiAiApiKey (some requested)
      env.lifestyle
  let lr := run1.1
  let run2 :=
    if lr.provider ≠ "kie" ∧ lr.provider ≠ "openai" then
      let scenePrompts :=
        if !requested.isEmpty then requested
        else defaultLifestylePrompts design.productType
      let fb :=
        finalizeFallbackLoop env.settings.openAiApiKey design.previewImageUrl
          env scenePrompts 0
      if fb.1.length = scenePrompts.length then
        let prevMsg := lr.providerMessage
        (({ imageUrls := fb.1, provider := "openai-image-fallback",
            providerMessage := s!"KIE unavailable. Used OpenAI image generation for product scenes. Previous message: {prevMsg}" } : LifestyleResult),
         fb.2)
      else (lr, fb.2)
    else (lr, [])
  let lr2 := run2.1
  { images := lr2.imageUrls.map (persistImageUrl env.persistFetch),
    provider := lr2.provider,
    providerMessage := lr2.providerMessage,
    events := run1.2 ++ run2.2 }

/-- Step 2 of the finalize handler (lines 1296-1326): keep the raw
artwork when present (saving it as a transparent-artwork asset), else
attempt extraction, saving the result when one is produced. -/
def finalizeTransparentStage (design : Design) (env : FinalizeEnv) :
    Option String × List AssetRecord × List ProviderEvent :=
  if design.rawArtworkUrl ≠ "" then
    (some design.rawArtworkUrl,
     [{ designId := design.id, shopDomain := design.shopDomain,
        type := "artwork-transparent", role := "final",
        url := design.rawArtworkUrl,
        promptSnapshot := "Raw artwork (generated before product mockup)" }],
     [])
  else
    let ex := extractArtwork env.settings.openAiApiKey design.previewImageUrl
      env.extractOutcome
    match ex.1 with
    | some url =>
        (some url,
         [{ designId := design.id, shopDomain := design.shopDomain,
            type := "artwork-transparent", role := "final", url,
            promptSnapshot := "Isolated artwork with transparent background" }],
         ex.2)
    | none => (none, [], ex.2)

/-- The `listingCopy` slice of the finalize response body. -/
structure ListingCopySummary where
  title : String
  descriptionText : String
  tags : List String
  deriving Repr, DecidableEq

/-- The JSON body the finalize handler responds with (both the
idempotent-guard shape of lines 1182-1190 and the completed shape of
lines 1419-1435; the provider object is flattened into the three
`provider*` fields). -/
structure FinalizeResponse where
  productId : Option String
  adminUrl : Option String
  lifestyleImages : List String
  transparentArtworkUrl : Option String
  publishError : Option String
  providerLifestyleImages : String
  providerListingCopy : String
  providerMessage : String
  listingCopy : Option ListingCopySummary
  alreadyPublished : Bool
  deriving Repr, DecidableEq

structure FinalizeRun where
  response : FinalizeResponse
  design' : Design
  savedAssets : List AssetRecord
  productUpsert : Option ProductRecord
  calls : List ProviderEvent

/-- The finalize handler from the design lookup onward (lines
1180-1435).  Repository writes are modelled as the returned post-state
(`design'`, `savedAssets`, `productUpsert`); the image URLs handed to
`publishService.publish` are determined by the recorded stage outputs,
and the publish call itself is the `publishOutcome` oracle. -/
def finalizeRun (design : Design) (req : FinalizeReq) (env : FinalizeEnv) :
    FinalizeRun :=
  if design.status = "published" ∧ design.shopifyProductId ≠ "" then
    { response :=
        { productId := some design.shopifyProductId,
          adminUrl := some design.adminUrl,
          lifestyleImages := [],
          transparentArtworkUrl :=
            if design.rawArtworkUrl = "" then none else some design.rawArtworkUrl,
          publishError := none,
          providerLifestyleImages := "cached",
          providerListingCopy := "cached",
          providerMessage := "Product was already published.",
          listingCopy := none,
          alreadyPublished := true },
      design' := design, savedAssets := [], productUpsert := none,
      calls := [] }
  else
    let publishImmediately := req.publishImmediately.getD design.publishImmediately
    let ls := finalizeLifestyleStage design req env
    let tr := finalizeTransparentStage design env
    let transparentArtworkUrl := tr.1
    let copyRun :=
      generateListingCopy design.prompt design.productType
        env.settings.openAiApiKey env.copyOutcome
    let listingCopy := copyRun.1.copy
    let lifestyleAssets := ls.images.map fun url =>
      { designId := design.id, shopDomain := design.shopDomain,
        type := "lifestyle", role := "final", url,
        promptSnapshot := design.artworkPrompt : AssetRecord }
    let publishedProduct :=
      match env.publishOutcome with
      | .ok p => some p
      | .error _ => none
    let publishError :=
      match env.publishOutcome with
      | .ok _ => (none : Option String)
      | .error msg => some (jsOr msg "Shopify publish failed")
    let providerMessages :=
      [ls.providerMessage] ++
        (match publishError with
         | some e => [s!"Shopify publish skipped: {e}. You can publish later once OAuth is configured."]
         | none => [])
    let response : FinalizeResponse :=
      { productId :=
          match publishedProduct with
          | some p => if p.productId = "" then none else some p.productId
          | none => none,
        adminUrl :=
          match publishedProduct with
          | some p => if p.adminUrl = "" then none else some p.adminUrl
          | none => none,
        lifestyleImages := ls.images,
        transparentArtworkUrl := transparentArtworkUrl,
        publishError := publishError,
        providerLifestyleImages := ls.provider,
        providerListingCopy := "ok",
        providerMessage :=
          String.intercalate " | " (providerMessages.filter (· ≠ "")),
        listingCopy := some
          { title := listingCopy.title,
            descriptionText := listingCopy.descriptionText,
            tags := listingCopy.tags },
        alreadyPublished := false }
    let design' :=
      match publishedProduct with
      | some p =>
          { design with
              status := "published", shopifyProductId := p.productId,
              adminUrl := p.adminUrl, updatedAt := env.now,
              finalizedAt := some env.now }
      | none =>
          { design with
              status := "finalized", updatedAt := env.now,
              finalizedAt := some env.now }
    { response := response,
      design' := design',
      savedAssets := tr.2.1 ++ lifestyleAssets,
      productUpsert :=
        match publishedProduct with
        | some p => some
            { designId := design.id, shopDomain := design.shopDomain,
              productId := p.productId, adminUrl := p.adminUrl,
              publishImmediately, updatedAt := env.now }
        | none => none,
      calls := ls.events ++ tr.2.2 ++ copyRun.2 ++ [.publishRequest] }

/-! ## The retry-publish handler (part_003 lines 1445-1533) -/

structure RetryPublishEnv where
  settings : Settings
  designAssets : List AssetRecord
  copyOutcome : CopyOutcome
  publishOutcome : Except String PublishedProduct
  now : Nat

structure RetryPublishResponse where
  productId : Option String
  adminUrl : Option String
  publishError : Option String
  alreadyPublished : Bool
  deriving Repr, DecidableEq

structure RetryPublishRun where
  response : RetryPublishResponse
  design' : Design
  productUpsert : Option ProductRecord
  calls : List ProviderEvent

/-- The retry-publish handler from the design lookup onward (lines
1457-1532).  The gathered `imageUrls` (preview plus persisted lifestyle
assets, falsy entries dropped) are passed to the publish oracle. -/
def retryPublishRun (design : Design) (reqPublishImmediately : Option Bool)
    (env : RetryPublishEnv) : RetryPublishRun :=
  if design.status = "published" ∧ design.shopifyProductId ≠ "" then
    { response :=
        { productId := some design.shopifyProductId,
          adminUrl := some design.adminUrl,
          publishError := none, alreadyPublished := true },
      design' := design, productUpsert := none, calls := [] }
  else
    let publishImmediately := reqPublishImmediately.getD design.publishImmediately
    let copyRun :=
      generateListingCopy design.prompt design.productType
        env.settings.openAiApiKey env.copyOutcome
    match env.publishOutcome with
    | .ok p =>
        { response :=
            { productId := some p.productId, adminUrl := some p.adminUrl,
              publishError := none, alreadyPublished := false },
          design' :=
            { design with
                status := "published",
                shopifyProductId := p.productId, adminUrl := p.adminUrl,
                updatedAt := env.now },
          productUpsert := some
            { designId := design.id, shopDomain := design.shopDomain,
              productId := p.productId, adminUrl := p.adminUrl,
              publishImmediately, updatedAt := env.now },
          calls := copyRun.2 ++ [.publishRequest] }
    | .error msg =>
        { response :=
            { productId := none, adminUrl := none,
              publishError := some (jsOr msg "Publish failed"),
              alreadyPublished := false },
          design' := design, productUpsert := none,
          calls := copyRun.2 ++ [.publishRequest] }

/-! ## The revise handler (part_003 lines 1062-1162) -/

/-- `buildArtworkPrompt` (podPipelineService.js 261-264). -/
def buildArtworkPrompt (prompt amendment : String) : String :=
  let amendmentText :=
    if jsTrim amendment ≠ "" then s!" with revision: {jsTrim amendment}" else ""
  s!"Create a clean, isolated artwork design for print-on-demand. The design concept: {prompt}{amendmentText}. Render the artwork on a SOLID WHITE background. The background must be pure white (#FFFFFF) with absolutely no transparency. No product, no mockup, no surface — just the standalone graphic/illustration on a flat white background, ready to be printed."

structure ReviseEnv where
  settings : Settings
  img1 : DesignImageEnv
  img2 : DesignImageEnv
  assetId : String
  now : Nat

structure ReviseRun where
  httpStatus : Nat
  design' : Design
  savedAssets : List AssetRecord

/-- The revise handler from the design lookup onward (lines 1080-1156):
generate a revision image, retry once (possibly dropping the reference
image) when no live provider answered, 504 when both rounds fall back,
else save the revision asset and update the design. -/
def reviseRun (design : Design) (amendment : String) (env : ReviseEnv) :
    ReviseRun :=
  let artworkPrompt := buildArtworkPrompt design.prompt amendment
  let referenceUrl := jsOr design.rawArtworkUrl design.previewImageUrl
  let revisionPrompt :=
    s!"Edit the provided artwork design. Keep the same overall composition, subject, and visual style. Apply only this change: {amendment}"
  let r1 :=
    (generateDesignImage revisionPrompt env.settings.openAiApiKey
      env.settings.keiAiApiKey referenceUrl env.img1).1
  let r :=
    if r1.provider ≠ "openai" ∧ r1.provider ≠ "kie" then
      let providerMessage := r1.providerMessage.toLower
      let shouldRetryWithoutReference :=
        jsIncludes providerMessage "size exceeds limit" ||
          jsIncludes providerMessage "timed out"
      (generateDesignImage revisionPrompt env.settings.openAiApiKey
        env.settings.keiAiApiKey
        (if shouldRetryWithoutReference then "" else referenceUrl) env.img2).1
    else r1
  if r.provider ≠ "openai" ∧ r.provider ≠ "kie" then
    { httpStatus := 504, design' := design, savedAssets := [] }
  else
    let designImageUrl := r.imageUrl
    { httpStatus := 200,
      design' :=
        { design with
            artworkPrompt := artworkPrompt,
            previewImageUrl := designImageUrl,
            rawArtworkUrl := designImageUrl,
            currentDesignAssetId := env.assetId,
            revisionCount := design.revisionCount + 1,
            status := "preview_ready", updatedAt := env.now },
      savedAssets :=
        [{ designId := design.id, shopDomain := design.shopDomain,
           type := "design-preview", role := "revision",
           url := designImageUrl, promptSnapshot := artworkPrompt }] }

/-! ## Predicates used by the statements -/

/-- A status poll that reports neither a success nor a failure flag and
carries no image URL: a well-formed pending payload. -/
def isPendingNoImage (s : KiePollStep) : Bool :=
  match s with
  | .payload d =>
      d.imageUrl.isNone &&
        !(pickKieSuccessFlag d.rawFlag = some 2 ||
          pickKieSuccessFlag d.rawFlag = some 3)
  | _ => false

/-- The key shapes the spec calls unconfigured: empty or whitespace-only
strings, and keys beginning with a test prefix. -/
def isTestShapedKey (s : String) : Prop :=
  (∀ c ∈ s.data, c.isWhitespace) ∨
    "kei_test_".data.isPrefixOf s.data = true ∨
    "openai_test_".data.isPrefixOf s.data = true

/-- A failing copy-provider interaction: unusable key, thrown transport
error, non-2xx response, or malformed JSON content. -/
def copyCallFails (openAiApiKey : String) (outcome : CopyOutcome) : Prop :=
  isUsableApiKey openAiApiKey = false ∨
    (∃ m, outcome = .thrown m) ∨
    (∃ st, outcome = .httpError st) ∨
    outcome = .ok none

/-! # Theorems

## Backoff retry bounds (claim C8) -/

theorem retryGo_fnCalls_le {ε α : Type} (fn : Nat → Except ε α)
    (sr : ε → Nat → Bool) (m : Nat) (b : ℚ) (rand : Nat → ℚ) :
    ∀ fuel attempt acc, attempt + fuel = m + 1 →
      (retryGo fn sr m b rand attempt fuel acc).fnCalls ≤ m + 1 := by
  intro fuel
  induction fuel with
  | zero =>
      intro attempt acc _
      simp [retryGo]
  | succ n ih =>
      intro attempt acc h
      rw [retryGo]
      cases hfn : fn attempt with
      | ok a => simpa using by omega
      | error e =>
          by_cases hc : (decide (attempt ≥ m) || !sr e attempt) = true
          · simp only [hc, if_true]
            simpa using by omega
          · simp only [hc, if_false, Bool.false_eq_true]
            exact ih (attempt + 1) _ (by omega)

theorem retryGo_delays_eq {ε α : Type} (fn : Nat → Except ε α)
    (sr : ε → Nat → Bool) (m : Nat) (b : ℚ) (rand : Nat → ℚ) :
    ∀ fuel attempt acc,
      (∀ kd ∈ acc, kd.2 = b * 2 ^ kd.1 + rand kd.1 * 500) →
      ∀ kd ∈ (retryGo fn sr m b rand attempt fuel acc).delays,
        kd.2 = b * 2 ^ kd.1 + rand kd.1 * 500 := by
  intro fuel
  induction fuel with
  | zero =>
      intro attempt acc hacc
      simpa [retryGo] using hacc
  | succ n ih =>
      intro attempt acc hacc
      rw [retryGo]
      cases hfn : fn attempt with
      | ok a => simpa using hacc
      | error e =>
          by_cases hc : (decide (attempt ≥ m) || !sr e attempt) = true
          · simp only [hc, if_true]
            simpa using hacc
          · simp only [hc, if_false, Bool.false_eq_true]
            apply ih
            intro kd hkd
            rcases List.mem_append.mp hkd with hmem | hmem
            · exact hacc kd hmem
            · rcases List.mem_singleton.mp hmem with rfl
              rfl

/-- C8: in `retryWithBackoff`, the sleep recorded before retrying failed
attempt `k` equals `base * 2 ^ k` plus a jitter draw scaled by 500, so it
lies in `[base * 2 ^ k, base * 2 ^ k + 500)` whenever every random draw
lies in `[0, 1)`; and the wrapped function is invoked at most
`maxRetries + 1` times. -/
theorem retryWithBackoff_bounds {ε α : Type} (fn : Nat → Except ε α)
    (sr : ε → Nat → Bool) (maxRetries : Nat) (base : ℚ) (rand : Nat → ℚ)
    (hrand : ∀ k, 0 ≤ rand k ∧ rand k < 1) :
    (retryWithBackoff fn sr maxRetries base rand).fnCalls ≤ maxRetries + 1 ∧
    ∀ kd ∈ (retryWithBackoff fn sr maxRetries base rand).delays,
      base * 2 ^ kd.1 ≤ kd.2 ∧ kd.2 < base * 2 ^ kd.1 + 500 := by
  constructor
  · exact retryGo_fnCalls_le fn sr maxRetries base rand _ 0 [] (by omega)
  · intro kd hkd
    have heq := retryGo_delays_eq fn sr maxRetries base rand _ 0 []
      (by intro kd hkd; cases hkd) kd hkd
    obtain ⟨h0, h1⟩ := hrand kd.1
    constructor
    · rw [heq]
      nlinarith
    · rw [heq]
      nlinarith

/-- Witness for C8 at `maxRetries = 2`, `base = 1000`, a constantly
failing call and jitter draw 1/2. -/
theorem retryWithBackoff_bounds_witness :
    (retryWithBackoff (fun _ => (.error 0 : Except Nat Nat)) (fun _ _ => true)
        2 1000 (fun _ => 1/2)).fnCalls ≤ 3 ∧
    ∀ kd ∈ (retryWithBackoff (fun _ => (.error 0 : Except Nat Nat))
        (fun _ _ => true) 2 1000 (fun _ => 1/2)).delays,
      1000 * 2 ^ kd.1 ≤ kd.2 ∧ kd.2 < 1000 * 2 ^ kd.1 + 500 :=
  retryWithBackoff_bounds (fun _ => .error 0) (fun _ _ => true) 2 1000
    (fun _ => 1/2) (fun _ => by norm_num)

/-! ## KIE polling bounds (claims C3, C5) -/

theorem kiePollLoop_statusCalls_le (svc : PipelineSvc) (polls : Nat → KiePollStep) :
    ∀ fuel attempt calls,
      (kiePollLoop svc polls attempt fuel calls).statusCalls ≤ calls + fuel := by
  intro fuel
  induction fuel with
  | zero =>
      intro attempt calls
      simp [kiePollLoop]
  | succ n ih =>
      intro attempt calls
      rw [kiePollLoop]
      cases hpa : polls attempt with
      | httpError st => dsimp only; omega
      | codeError m => dsimp only; omega
      | payload d =>
          dsimp only
          split
          · dsimp only; omega
          · split
            · dsimp only; omega
            · cases d.imageUrl with
              | some u => dsimp only; omega
              | none =>
                  dsimp only
                  calc (kiePollLoop svc polls (attempt + 1) n (calls + 1)).statusCalls
                      ≤ (calls + 1) + n := ih (attempt + 1) (calls + 1)
                    _ = calls + (n + 1) := by omega

theorem kiePollLoop_timeout (svc : PipelineSvc) (polls : Nat → KiePollStep)
    (hp : ∀ k, isPendingNoImage (polls k) = true) :
    ∀ fuel attempt calls,
      (kiePollLoop svc polls attempt fuel calls).outcome = .timedOut := by
  intro fuel
  induction fuel with
  | zero => intro _ _; rfl
  | succ n ih =>
      intro attempt calls
      rw [kiePollLoop]
      have h := hp attempt
      cases hpa : polls attempt with
      | httpError st => rw [hpa] at h; simp [isPendingNoImage] at h
      | codeError m => rw [hpa] at h; simp [isPendingNoImage] at h
      | payload d =>
          rw [hpa] at h
          simp only [isPendingNoImage, Bool.and_eq_true, Bool.not_eq_true',
            Bool.or_eq_false_iff, decide_eq_false_iff_not] at h
          obtain ⟨himg, hflag2, hflag3⟩ := h
          have himg' : d.imageUrl = none := by
            cases hd : d.imageUrl
            · rfl
            · rw [hd] at himg; simp at himg
          dsimp only
          rw [himg']
          simp only [Option.isSome_none, Bool.and_false, Bool.false_eq_true,
            if_false, decide_eq_true_eq]
          rw [if_neg]
          · exact ih (attempt + 1) (calls + 1)
          · simp only [Bool.or_eq_true, decide_eq_true_eq]
            tauto

/-- C3 (amended): for caller-supplied `interval > 0` and `deadline > 0`
the poll loop performs at most `max 1 ⌊deadline / interval⌋` status calls
(one call is always made even when the deadline is shorter than the
interval), and when every poll returns a well-formed payload reporting
neither a success nor a failure flag and carrying no image URL, the run
ends in the distinct timeout outcome. -/
theorem requestKieImage_poll_bounds (svc : PipelineSvc) (create : KieCreateStep)
    (polls : Nat → KiePollStep) (maxWaitMs pollIntervalMs : Nat) (is4o : Bool)
    (hI : 0 < pollIntervalMs) (hD : 0 < maxWaitMs) :
    (requestKieImage svc create polls maxWaitMs pollIntervalMs is4o).statusCalls ≤
      max 1 (maxWaitMs / pollIntervalMs) ∧
    ((∀ k, isPendingNoImage (polls k) = true) →
      ∀ tid direct msg, create = .payload (some tid) direct msg →
        (requestKieImage svc create polls maxWaitMs pollIntervalMs is4o).outcome =
          .timedOut) := by
  have hsleep : kieSleepMs pollIntervalMs is4o = pollIntervalMs := by
    simp [kieSleepMs, hI]
  have hwait : kieWaitMs maxWaitMs is4o = maxWaitMs := by
    simp [kieWaitMs, hD]
  constructor
  · cases create with
    | httpError st => simp [requestKieImage]
    | codeError m => simp [requestKieImage]
    | payload taskId direct msg =>
        cases taskId with
        | none =>
            cases direct with
            | some u => simp [requestKieImage]
            | none => simp [requestKieImage]
        | some tid =>
            simp only [requestKieImage, hsleep, hwait]
            have := kiePollLoop_statusCalls_le svc polls
              (kieMaxAttempts maxWaitMs pollIntervalMs) 0 0
            simpa [kieMaxAttempts] using this
  · intro hp tid direct msg hcreate
    subst hcreate
    simp only [requestKieImage, hsleep, hwait]
    exact kiePollLoop_timeout svc polls hp _ 0 0

/-- Witness for C3 (amended): deadline 30000 ms, interval 2500 ms, every
poll pending with no image: at most 12 status calls and a timeout. -/
theorem requestKieImage_poll_bounds_witness :
    (requestKieImage ⟨true⟩ (.payload (some "t") none none)
        (fun _ => .payload ⟨some (.num 0), none, none⟩) 30000 2500 false).statusCalls ≤
      max 1 (30000 / 2500) ∧
    (requestKieImage ⟨true⟩ (.payload (some "t") none none)
        (fun _ => .payload ⟨some (.num 0), none, none⟩) 30000 2500 false).outcome =
      .timedOut := by
  have h := requestKieImage_poll_bounds ⟨true⟩ (.payload (some "t") none none)
    (fun _ => .payload ⟨some (.num 0), none, none⟩) 30000 2500 false
    (by decide) (by decide)
  refine ⟨h.1, h.2 (fun k => ?_) "t" none none rfl⟩
  exact (by decide :
    isPendingNoImage (KiePollStep.payload ⟨some (.num 0), none, none⟩) = true)

/-- C3 counterexample: with interval 3000 ms and deadline 1000 ms the
loop still performs one status call even though `⌊1000/3000⌋ = 0`, and a
pending payload carrying an image URL makes the run return that image —
no success or failure flag was ever reported, yet the outcome is not the
timeout one.  Both conjuncts of the claim as stated fail here. -/
theorem requestKieImage_c3_counterexample :
    (requestKieImage ⟨true⟩ (.payload (some "t") none none)
        (fun _ => .payload ⟨some (.num 0), some "img", none⟩) 1000 3000 false).statusCalls = 1 ∧
    (1000 : Nat) / 3000 = 0 ∧
    pickKieSuccessFlag (some (.num 0)) = some 0 ∧
    (requestKieImage ⟨true⟩ (.payload (some "t") none none)
        (fun _ => .payload ⟨some (.num 0), some "img", none⟩) 1000 3000 false).outcome =
      .result "img" := by
  refine ⟨by decide, by decide, by decide, by decide⟩

theorem kiePollLoop_no_analytics (polls : Nat → KiePollStep) :
    ∀ fuel attempt calls,
      (kiePollLoop ⟨false⟩ polls attempt fuel calls).costEvents = [] := by
  intro fuel
  induction fuel with
  | zero => intro _ _; rfl
  | succ n ih =>
      intro attempt calls
      rw [kiePollLoop]
      cases hpa : polls attempt with
      | httpError st => rfl
      | codeError m => rfl
      | payload d =>
          dsimp only
          split
          · simp [trackCost]
          · split
            · rfl
            · cases d.imageUrl with
              | some u => rfl
              | none => exact ih (attempt + 1) (calls + 1)

/-- C5 (amended): a KIE result accepted via the unambiguous success flag,
and a direct result embedded in the submission response, fire the
cost-tracking hook (when an analytics sink is attached); but a result
accepted opportunistically from a status payload without a success flag
is returned with no cost event, and with the pipeline service constructed
as the server does — no analytics sink attached — no KIE run fires any
cost event at all. -/
theorem requestKieImage_cost_tracking (create : KieCreateStep)
    (polls : Nat → KiePollStep) (maxWaitMs pollIntervalMs : Nat) (is4o : Bool)
    (d : KieStatusData) (tid : String) (direct payloadMsg : Option String)
    (u : String)
    (hcreate : create = .payload (some tid) direct payloadMsg)
    (hpoll : polls 0 = .payload d)
    (hflag : pickKieSuccessFlag d.rawFlag = some 1 ∨
      pickKieSuccessFlag d.rawFlag = some 200)
    (himg : d.imageUrl = some u) :
    ((requestKieImage ⟨true⟩ create polls maxWaitMs pollIntervalMs is4o).costEvents =
        [kieCostEvent] ∧
      (requestKieImage ⟨true⟩ create polls maxWaitMs pollIntervalMs is4o).outcome =
        .result u) ∧
    (∀ u' m', (requestKieImage ⟨true⟩ (.payload none (some u') m') polls
        maxWaitMs pollIntervalMs is4o).costEvents = [kieCostEvent]) ∧
    (∀ create', (requestKieImage ⟨false⟩ create' polls
        maxWaitMs pollIntervalMs is4o).costEvents = []) := by
  refine ⟨?_, ?_, ?_⟩
  · subst hcreate
    simp only [requestKieImage]
    obtain ⟨n, hn⟩ : ∃ n, kieMaxAttempts (kieWaitMs maxWaitMs is4o)
        (kieSleepMs pollIntervalMs is4o) = n + 1 :=
      ⟨kieMaxAttempts (kieWaitMs maxWaitMs is4o) (kieSleepMs pollIntervalMs is4o) - 1,
        by unfold kieMaxAttempts; omega⟩
    rw [hn, kiePollLoop, hpoll]
    have hcond : ((decide (pickKieSuccessFlag d.rawFlag = some 1) ||
        decide (pickKieSuccessFlag d.rawFlag = some 200)) && d.imageUrl.isSome) = true := by
      rcases hflag with hf | hf <;> simp [hf, himg]
    dsimp only
    rw [if_pos hcond]
    constructor
    · simp [trackCost]
    · simp [himg]
  · intro u' m'
    simp [requestKieImage, trackCost]
  · intro create'
    cases create' with
    | httpError st => rfl
    | codeError m => rfl
    | payload taskId directImage m =>
        cases taskId with
        | none =>
            cases directImage with
            | some du => simp [requestKieImage, trackCost]
            | none => rfl
        | some t =>
            simp only [requestKieImage]
            exact kiePollLoop_no_analytics polls _ 0 0

/-- Witness for C5 (amended) at a concrete success-flag poll. -/
theorem requestKieImage_cost_tracking_witness :
    ((requestKieImage ⟨true⟩ (.payload (some "t") none none)
        (fun _ => .payload ⟨some (.num 1), some "u", none⟩) 30000 2500 false).costEvents =
        [kieCostEvent] ∧
      (requestKieImage ⟨true⟩ (.payload (some "t") none none)
        (fun _ => .payload ⟨some (.num 1), some "u", none⟩) 30000 2500 false).outcome =
        .result "u") ∧
    (∀ u' m', (requestKieImage ⟨true⟩ (.payload none (some u') m')
        (fun _ => .payload ⟨some (.num 1), some "u", none⟩) 30000 2500 false).costEvents =
        [kieCostEvent]) ∧
    (∀ create', (requestKieImage ⟨false⟩ create'
        (fun _ => .payload ⟨some (.num 1), some "u", none⟩) 30000 2500 false).costEvents =
        []) :=
  requestKieImage_cost_tracking (.payload (some "t") none none)
    (fun _ => .payload ⟨some (.num 1), some "u", none⟩) 30000 2500 false
    ⟨some (.num 1), some "u", none⟩ "t" none none "u" rfl rfl
    (Or.inl (by decide)) rfl

/-- C5 counterexample: with an analytics sink attached, a poll payload
carrying an image URL but a pending flag is accepted and returned while
the cost-event list stays empty — an accepted result that does not
increment the (provider, model, operation) counter. -/
theorem requestKieImage_cost_counterexample :
    (requestKieImage ⟨true⟩ (.payload (some "t") none none)
        (fun _ => .payload ⟨some (.num 0), some "img", none⟩) 30000 2500 false).outcome =
      .result "img" ∧
    (requestKieImage ⟨true⟩ (.payload (some "t") none none)
        (fun _ => .payload ⟨some (.num 0), some "img", none⟩) 30000 2500 false).costEvents =
      [] := by
  exact ⟨by decide, by decide⟩

/-! ## Listing-copy fallback totality (claim C7) -/

theorem fallbackListingCopy_ok (prompt productType : String) :
    (fallbackListingCopy prompt productType).title ≠ "" ∧
    (fallbackListingCopy prompt productType).descriptionText ≠ "" ∧
    (fallbackListingCopy prompt productType).descriptionHtml ≠ "" ∧
    productType ∈ (fallbackListingCopy prompt productType).tags := by
  refine ⟨?_, ?_, ?_, ?_⟩
  · intro h
    have hlen := congrArg String.length h
    simp only [fallbackListingCopy, String.length_append] at hlen
    have h3 : 0 < (" - " : String).length := by decide
    have h0 : ("" : String).length = 0 := rfl
    omega
  · intro h
    have hlen := congrArg String.length h
    simp only [fallbackListingCopy, String.length_append] at hlen
    have h3 : 0 <
        (". Professionally generated POD design and lifestyle visuals." :
          String).length := by decide
    have h0 : ("" : String).length = 0 := rfl
    omega
  · intro h
    have hlen := congrArg String.length h
    simp only [fallbackListingCopy, String.length_append] at hlen
    have h3 : 0 < ("<p>" : String).length := by decide
    have h0 : ("" : String).length = 0 := rfl
    omega
  · simp [fallbackListingCopy]

/-- C7: whenever the copy-provider call fails — unusable key, thrown
transport error, non-2xx response, or malformed JSON — `generateListingCopy`
still returns (without raising) a copy with a non-empty title, non-empty
description text and HTML, and a tag list containing the product
category. -/
theorem generateListingCopy_fallback_total (prompt productType
    openAiApiKey : String) (outcome : CopyOutcome)
    (h : copyCallFails openAiApiKey outcome) :
    (generateListingCopy prompt productType openAiApiKey outcome).1.copy.title ≠ "" ∧
    (generateListingCopy prompt productType openAiApiKey outcome).1.copy.descriptionText ≠ "" ∧
    (generateListingCopy prompt productType openAiApiKey outcome).1.copy.descriptionHtml ≠ "" ∧
    productType ∈ (generateListingCopy prompt productType openAiApiKey outcome).1.copy.tags := by
  have hcopy : (generateListingCopy prompt productType openAiApiKey outcome).1.copy =
      fallbackListingCopy prompt productType := by
    by_cases hk : isUsableApiKey openAiApiKey = true
    · rcases h with hfail | ⟨m, rfl⟩ | ⟨st, rfl⟩ | rfl
      · rw [hk] at hfail; cases hfail
      · simp [generateListingCopy, hk]
      · simp [generateListingCopy, hk]
      · simp [generateListingCopy, hk]
    · have hk' : isUsableApiKey openAiApiKey = false := by
        cases hb : isUsableApiKey openAiApiKey
        · rfl
        · exact absurd hb hk
      simp [generateListingCopy, hk']
  rw [hcopy]
  exact fallbackListingCopy_ok prompt productType

/-- Witness for C7: empty key (unusable), any outcome. -/
theorem generateListingCopy_fallback_total_witness :
    (generateListingCopy "cosmic cat" "mug" "" (.httpError 500)).1.copy.title ≠ "" ∧
    (generateListingCopy "cosmic cat" "mug" "" (.httpError 500)).1.copy.descriptionText ≠ "" ∧
    (generateListingCopy "cosmic cat" "mug" "" (.httpError 500)).1.copy.descriptionHtml ≠ "" ∧
    "mug" ∈ (generateListingCopy "cosmic cat" "mug" "" (.httpError 500)).1.copy.tags :=
  generateListingCopy_fallback_total "cosmic cat" "mug" "" (.httpError 500)
    (Or.inl (by decide))

/-! ## Provider waterfall short-circuit (claim C4) -/

theorem openAiDesignTier_events (k r : String) (env : DesignImageEnv) :
    ∀ e ∈ (openAiDesignTier k r env).2,
      e = ProviderEvent.openAiEditRequest ∨ e = ProviderEvent.openAiImageRequest := by
  intro e he
  by_cases hk : isUsableApiKey k = true
  · by_cases hr : r = ""
    · cases hg : env.genOutcome <;>
        simp_all [openAiDesignTier, generateOpenAiImageEdit, generateOpenAiImage]
    · by_cases hjr : jsTrim r = ""
      · cases hg : env.genOutcome <;>
          simp_all [openAiDesignTier, generateOpenAiImageEdit, generateOpenAiImage]
      · cases hed : env.editOutcome <;> cases hg : env.genOutcome <;>
          simp_all [openAiDesignTier, generateOpenAiImageEdit, generateOpenAiImage]
  · simp_all [openAiDesignTier]

/-- C4: in the image waterfall, a non-null primary (OpenAI) tier result
short-circuits — the returned image and calls are exactly the primary
tier's, the provider tag is `"openai"`, and no KIE request happens; and
when the primary tier yields nothing but the secondary (KIE) tier is
configured and succeeds, the provider tag is `"kie"` — the placeholder
tiers (`fallback-no-key` / `fallback-error`) are reached only after both
live tiers have failed. -/
theorem generateDesignImage_waterfall (artworkPrompt openAiApiKey
    keiAiApiKey referenceImageUrl : String) (env : DesignImageEnv) :
    (∀ url usedRef evs,
      openAiDesignTier openAiApiKey referenceImageUrl env = (some (url, usedRef), evs) →
      (generateDesignImage artworkPrompt openAiApiKey keiAiApiKey
          referenceImageUrl env).1.imageUrl = url ∧
      (generateDesignImage artworkPrompt openAiApiKey keiAiApiKey
          referenceImageUrl env).1.provider = "openai" ∧
      (generateDesignImage artworkPrompt openAiApiKey keiAiApiKey
          referenceImageUrl env).2 = evs ∧
      ProviderEvent.kieRequest ∉ (generateDesignImage artworkPrompt
          openAiApiKey keiAiApiKey referenceImageUrl env).2) ∧
    (∀ evs u,
      openAiDesignTier openAiApiKey referenceImageUrl env = (none, evs) →
      isUsableApiKey keiAiApiKey = true →
      env.kieOutcome = .ok u →
      (generateDesignImage artworkPrompt openAiApiKey keiAiApiKey
          referenceImageUrl env).1.provider = "kie" ∧
      (generateDesignImage artworkPrompt openAiApiKey keiAiApiKey
          referenceImageUrl env).1.imageUrl = u ∧
      (generateDesignImage artworkPrompt openAiApiKey keiAiApiKey
          referenceImageUrl env).2 = evs ++ [.kieRequest]) := by
  constructor
  · intro url usedRef evs htier
    have hnomem : ProviderEvent.kieRequest ∉ evs := by
      intro hmem
      have := openAiDesignTier_events openAiApiKey referenceImageUrl env
        ProviderEvent.kieRequest (by rw [htier] at *; exact hmem)
      rcases this with h | h <;> cases h
    refine ⟨?_, ?_, ?_, ?_⟩ <;>
      simp [generateDesignImage, htier, hnomem]
  · intro evs u htier hkei hkie
    refine ⟨?_, ?_, ?_⟩ <;>
      simp [generateDesignImage, htier, hkei, hkie]

/-- Witness for C4 at a concrete environment: a usable OpenAI key whose
generation call answers, and a KIE environment that would also answer. -/
theorem generateDesignImage_waterfall_witness :
    (generateDesignImage "sunset fox" "sk-live-key" "kie-live-key" ""
        ⟨none, some "https://img/ok.png", .ok "https://kie/img.png"⟩).1.provider =
      "openai" ∧
    ProviderEvent.kieRequest ∉ (generateDesignImage "sunset fox" "sk-live-key"
        "kie-live-key" "" ⟨none, some "https://img/ok.png", .ok "https://kie/img.png"⟩).2 := by
  have h := (generateDesignImage_waterfall "sunset fox" "sk-live-key"
    "kie-live-key" "" ⟨none, some "https://img/ok.png", .ok "https://kie/img.png"⟩).1
    "https://img/ok.png" false [.openAiImageRequest] (by decide)
  exact ⟨h.2.1, h.2.2.2⟩

/-! ## Test-shaped keys are unconfigured (claim C10) -/

theorem isPrefixOf_true_iff {l1 l2 : List Char} :
    l1.isPrefixOf l2 = true ↔ l1 <+: l2 := by
  exact List.isPrefixOf_iff_prefix

theorem jsTrimList_nil_of_all_ws (cs : List Char)
    (h : ∀ c ∈ cs, c.isWhitespace) : jsTrimList cs = [] := by
  unfold jsTrimList
  rw [List.dropWhile_eq_nil_iff.mpr h]
  rfl

theorem dropTrailing_append (q t : List Char) (l0 : Char)
    (hl : l0.isWhitespace = false) :
    (((q ++ [l0]) ++ t).reverse.dropWhile Char.isWhitespace).reverse =
      (q ++ [l0]) ++ (t.reverse.dropWhile Char.isWhitespace).reverse := by
  rw [List.reverse_append, List.dropWhile_append]
  by_cases he : (t.reverse.dropWhile Char.isWhitespace).isEmpty
  · rw [if_pos he]
    have ht : t.reverse.dropWhile Char.isWhitespace = [] := by
      simpa [List.isEmpty_iff] using he
    rw [ht]
    have hrev : (q ++ [l0]).reverse = l0 :: q.reverse := by simp
    rw [hrev, List.dropWhile_cons_of_neg (by simp [hl])]
    simp
  · rw [if_neg he]
    simp

theorem jsTrimList_keeps_front (q t : List Char) (c l0 : Char)
    (hc : c.isWhitespace = false) (hl : l0.isWhitespace = false) :
    jsTrimList (((c :: q) ++ [l0]) ++ t) =
      ((c :: q) ++ [l0]) ++ (t.reverse.dropWhile Char.isWhitespace).reverse := by
  unfold jsTrimList
  have h1 : (((c :: q) ++ [l0]) ++ t).dropWhile Char.isWhitespace =
      ((c :: q) ++ [l0]) ++ t := by
    rw [show ((c :: q) ++ [l0]) ++ t = c :: ((q ++ [l0]) ++ t) by simp]
    rw [List.dropWhile_cons_of_neg (by simp [hc])]
  rw [h1]
  exact dropTrailing_append (c :: q) t l0 hl

theorem isUsableApiKey_prefix_aux (key : String) (q : List Char) (c l0 : Char)
    (t : List Char) (hc : c.isWhitespace = false) (hl : l0.isWhitespace = false)
    (hk : key.data = ((c :: q) ++ [l0]) ++ t)
    (hpre : "kei_test_".data.isPrefixOf ((c :: q) ++ [l0]) = true ∨
      "openai_test_".data.isPrefixOf ((c :: q) ++ [l0]) = true) :
    isUsableApiKey key = false := by
  unfold isUsableApiKey
  rw [hk, jsTrimList_keeps_front q t c l0 hc hl]
  have hne : ((((c :: q) ++ [l0]) ++
      (t.reverse.dropWhile Char.isWhitespace).reverse)).isEmpty = false := by
    simp
  have hcond : ("kei_test_".data.isPrefixOf (((c :: q) ++ [l0]) ++
        (t.reverse.dropWhile Char.isWhitespace).reverse) ||
      "openai_test_".data.isPrefixOf (((c :: q) ++ [l0]) ++
        (t.reverse.dropWhile Char.isWhitespace).reverse)) = true := by
    rcases hpre with h | h
    · have hp := (isPrefixOf_true_iff.mp h).trans
        (List.prefix_append _ (t.reverse.dropWhile Char.isWhitespace).reverse)
      exact Bool.or_eq_true_iff.mpr (Or.inl (isPrefixOf_true_iff.mpr hp))
    · have hp := (isPrefixOf_true_iff.mp h).trans
        (List.prefix_append _ (t.reverse.dropWhile Char.isWhitespace).reverse)
      exact Bool.or_eq_true_iff.mpr (Or.inr (isPrefixOf_true_iff.mpr hp))
  simp only []
  rw [hne, hcond]
  simp

theorem isUsableApiKey_test_shaped (key : String) (h : isTestShapedKey key) :
    isUsableApiKey key = false := by
  rcases h with h | h | h
  · unfold isUsableApiKey
    rw [jsTrimList_nil_of_all_ws key.data h]
    rfl
  · obtain ⟨t, ht⟩ := isPrefixOf_true_iff.mp h
    refine isUsableApiKey_prefix_aux key "ei_test".data 'k' '_' t
      (by decide) (by decide) ?_ (Or.inl (by decide))
    rw [← ht]
    exact congrArg (fun l => l ++ t) (by decide)
  · obtain ⟨t, ht⟩ := isPrefixOf_true_iff.mp h
    refine isUsableApiKey_prefix_aux key "penai_test".data 'o' '_' t
      (by decide) (by decide) ?_ (Or.inr (by decide))
    rw [← ht]
    exact congrArg (fun l => l ++ t) (by decide)

theorem openAiDesignTier_unusable (k r : String) (env : DesignImageEnv)
    (h : isUsableApiKey k = false) :
    openAiDesignTier k r env = (none, []) := by
  simp [openAiDesignTier, h]

/-- C10: a key that is empty, whitespace-only, or starts with
`kei_test_` / `openai_test_` is rejected by `isUsableApiKey`;
`generateListingCopy` then takes the `fallback-no-key` path with no
provider call, `generateDesignImage` never issues an OpenAI request for
such an OpenAI key nor a KIE request for such a KIE key, and with both
keys test-shaped it returns the `fallback-no-key` placeholder having made
no provider call at all. -/
theorem testShapedKey_unconfigured (key : String) (h : isTestShapedKey key) :
    isUsableApiKey key = false ∧
    (∀ prompt productType outcome,
      (generateListingCopy prompt productType key outcome).1.provider =
        "fallback-no-key" ∧
      (generateListingCopy prompt productType key outcome).2 = []) ∧
    (∀ artworkPrompt ref keiKey env,
      ProviderEvent.openAiEditRequest ∉
        (generateDesignImage artworkPrompt key keiKey ref env).2 ∧
      ProviderEvent.openAiImageRequest ∉
        (generateDesignImage artworkPrompt key keiKey ref env).2) ∧
    (∀ artworkPrompt ref openKey env,
      ProviderEvent.kieRequest ∉
        (generateDesignImage artworkPrompt openKey key ref env).2) ∧
    (∀ artworkPrompt ref env,
      (generateDesignImage artworkPrompt key key ref env).1.provider =
        "fallback-no-key" ∧
      (generateDesignImage artworkPrompt key key ref env).2 = []) := by
  have hkey := isUsableApiKey_test_shaped key h
  refine ⟨hkey, ?_, ?_, ?_, ?_⟩
  · intro prompt productType outcome
    constructor <;> simp [generateListingCopy, hkey]
  · intro artworkPrompt ref keiKey env
    have htier := openAiDesignTier_unusable key ref env hkey
    by_cases hkei : isUsableApiKey keiKey = true
    · cases hkie : env.kieOutcome <;>
        simp [generateDesignImage, htier, hkei, hkie]
    · have hkei' : isUsableApiKey keiKey = false := by
        cases hb : isUsableApiKey keiKey
        · rfl
        · exact absurd hb hkei
      simp [generateDesignImage, htier, hkei']
  · intro artworkPrompt ref openKey env
    rcases htier : openAiDesignTier openKey ref env with ⟨fst, snd⟩
    cases fst with
    | some p =>
        exact ((generateDesignImage_waterfall artworkPrompt openKey key ref env).1
          p.1 p.2 snd (by rw [htier])).2.2.2
    | none =>
        intro hmem
        have hred : (generateDesignImage artworkPrompt openKey key ref env).2 = snd := by
          simp [generateDesignImage, htier, hkey]
        rw [hred] at hmem
        have hev := openAiDesignTier_events openKey ref env
          ProviderEvent.kieRequest (by rw [htier]; exact hmem)
        rcases hev with h' | h' <;> cases h'
  · intro artworkPrompt ref env
    have htier := openAiDesignTier_unusable key ref env hkey
    constructor <;> simp [generateDesignImage, htier, hkey]

/-- Witness for C10 at the concrete key `"kei_test_abc"`. -/
theorem testShapedKey_unconfigured_witness :
    isUsableApiKey "kei_test_abc" = false ∧
    (generateListingCopy "p" "mug" "kei_test_abc" (.ok none)).1.provider =
      "fallback-no-key" ∧
    (generateDesignImage "p" "kei_test_abc" "kei_test_abc" ""
      ⟨none, none, .error "x"⟩).1.provider = "fallback-no-key" ∧
    (generateDesignImage "p" "kei_test_abc" "kei_test_abc" ""
      ⟨none, none, .error "x"⟩).2 = [] := by
  have h := testShapedKey_unconfigured "kei_test_abc"
    (Or.inr (Or.inl (by decide)))
  exact ⟨h.1, (h.2.1 "p" "mug" (.ok none)).1,
    (h.2.2.2.2 "p" "" ⟨none, none, .error "x"⟩).1,
    (h.2.2.2.2 "p" "" ⟨none, none, .error "x"⟩).2⟩

/-! ## Finalize idempotency guard (claim C1) -/

/-- C1: finalizing a design whose status is `"published"` and which
carries a stored product id short-circuits: no provider call of any kind
is issued, nothing is written (the design, assets and product records are
untouched), and the response carries the cached `productId` and
`adminUrl` with `alreadyPublished = true`. -/
theorem finalize_already_published (design : Design) (req : FinalizeReq)
    (env : FinalizeEnv) (h1 : design.status = "published")
    (h2 : design.shopifyProductId ≠ "") :
    (finalizeRun design req env).calls = [] ∧
    (finalizeRun design req env).design' = design ∧
    (finalizeRun design req env).savedAssets = [] ∧
    (finalizeRun design req env).productUpsert = none ∧
    (finalizeRun design req env).response.productId = some design.shopifyProductId ∧
    (finalizeRun design req env).response.adminUrl = some design.adminUrl ∧
    (finalizeRun design req env).response.alreadyPublished = true := by
  have hguard : design.status = "published" ∧ design.shopifyProductId ≠ "" :=
    ⟨h1, h2⟩
  unfold finalizeRun
  rw [if_pos hguard]
  exact ⟨rfl, rfl, rfl, rfl, rfl, rfl, rfl⟩

/-- Witness for C1 at a concrete published design. -/
theorem finalize_already_published_witness :
    (finalizeRun
        { id := "d1", shopDomain := "s.myshopify.com", prompt := "p",
          productType := "mug", publishImmediately := false,
          status := "published", artworkPrompt := "a",
          currentDesignAssetId := "", revisionCount := 0, createdAt := 1,
          updatedAt := 2, finalizedAt := some 2,
          shopifyProductId := "gid://shopify/Product/1",
          adminUrl := "https://admin.shopify.com/store/s/products/1",
          previewImageUrl := "/uploads/x.png", rawArtworkUrl := "/uploads/x.png" }
        ⟨none, none⟩
        ⟨⟨"", "", "", "", ""⟩, ⟨fun _ => none, fun _ => none, fun _ => .error "e"⟩,
          fun _ => none, fun _ => none, id, none, .ok none, .error "no token", 3⟩).calls =
      [] ∧
    (finalizeRun
        { id := "d1", shopDomain := "s.myshopify.com", prompt := "p",
          productType := "mug", publishImmediately := false,
          status := "published", artworkPrompt := "a",
          currentDesignAssetId := "", revisionCount := 0, createdAt := 1,
          updatedAt := 2, finalizedAt := some 2,
          shopifyProductId := "gid://shopify/Product/1",
          adminUrl := "https://admin.shopify.com/store/s/products/1",
          previewImageUrl := "/uploads/x.png", rawArtworkUrl := "/uploads/x.png" }
        ⟨none, none⟩
        ⟨⟨"", "", "", "", ""⟩, ⟨fun _ => none, fun _ => none, fun _ => .error "e"⟩,
          fun _ => none, fun _ => none, id, none, .ok none, .error "no token", 3⟩).response.productId =
      some "gid://shopify/Product/1" := by
  have h := finalize_already_published
    { id := "d1", shopDomain := "s.myshopify.com", prompt := "p",
      productType := "mug", publishImmediately := false,
      status := "published", artworkPrompt := "a",
      currentDesignAssetId := "", revisionCount := 0, createdAt := 1,
      updatedAt := 2, finalizedAt := some 2,
      shopifyProductId := "gid://shopify/Product/1",
      adminUrl := "https://admin.shopify.com/store/s/products/1",
      previewImageUrl := "/uploads/x.png", rawArtworkUrl := "/uploads/x.png" }
    ⟨none, none⟩
    ⟨⟨"", "", "", "", ""⟩, ⟨fun _ => none, fun _ => none, fun _ => .error "e"⟩,
      fun _ => none, fun _ => none, id, none, .ok none, .error "no token", 3⟩
    rfl (by decide)
  exact ⟨h.1, h.2.2.2.2.1⟩

/-! ## Publish failure is non-fatal in finalize (claim C2) -/

/-- C2: when the publish step throws (and the design was not already
published), finalize still completes with the success response shape:
`publishError` carries the thrown message, `productId` and `adminUrl` are
null, no product record is upserted — and the design still transitions to
`"finalized"`, with `finalizedAt` stamped. -/
theorem finalize_publish_error (design : Design) (req : FinalizeReq)
    (env : FinalizeEnv) (msg : String)
    (hguard : design.status ≠ "published")
    (hpub : env.publishOutcome = .error msg) (hmsg : msg ≠ "") :
    (finalizeRun design req env).response.publishError = some msg ∧
    (finalizeRun design req env).response.productId = none ∧
    (finalizeRun design req env).response.adminUrl = none ∧
    (finalizeRun design req env).response.alreadyPublished = false ∧
    (finalizeRun design req env).design'.status = "finalized" ∧
    (finalizeRun design req env).design'.finalizedAt = some env.now ∧
    (finalizeRun design req env).productUpsert = none := by
  have hguard' : ¬(design.status = "published" ∧ design.shopifyProductId ≠ "") :=
    fun hc => hguard hc.1
  unfold finalizeRun
  rw [if_neg hguard']
  refine ⟨?_, ?_, ?_, ?_, ?_, ?_, ?_⟩ <;> simp [hpub, jsOr, hmsg]

/-- Witness for C2 at a concrete unpublished design and a publish that
throws `"no access token"`. -/
theorem finalize_publish_error_witness :
    (finalizeRun
        { id := "d2", shopDomain := "s.myshopify.com", prompt := "p",
          productType := "mug", publishImmediately := true,
          status := "preview_ready", artworkPrompt := "a",
          currentDesignAssetId := "", revisionCount := 0, createdAt := 1,
          updatedAt := 2, finalizedAt := none, shopifyProductId := "",
          adminUrl := "", previewImageUrl := "/uploads/x.png",
          rawArtworkUrl := "/uploads/x.png" }
        ⟨none, none⟩
        ⟨⟨"", "", "", "", ""⟩, ⟨fun _ => none, fun _ => none, fun _ => .error "e"⟩,
          fun _ => none, fun _ => none, id, none, .ok none,
          .error "no access token", 7⟩).response.publishError =
      some "no access token" ∧
    (finalizeRun
        { id := "d2", shopDomain := "s.myshopify.com", prompt := "p",
          productType := "mug", publishImmediately := true,
          status := "preview_ready", artworkPrompt := "a",
          currentDesignAssetId := "", revisionCount := 0, createdAt := 1,
          updatedAt := 2, finalizedAt := none, shopifyProductId := "",
          adminUrl := "", previewImageUrl := "/uploads/x.png",
          rawArtworkUrl := "/uploads/x.png" }
        ⟨none, none⟩
        ⟨⟨"", "", "", "", ""⟩, ⟨fun _ => none, fun _ => none, fun _ => .error "e"⟩,
          fun _ => none, fun _ => none, id, none, .ok none,
          .error "no access token", 7⟩).response.productId = none ∧
    (finalizeRun
        { id := "d2", shopDomain := "s.myshopify.com", prompt := "p",
          productType := "mug", publishImmediately := true,
          status := "preview_ready", artworkPrompt := "a",
          currentDesignAssetId := "", revisionCount := 0, createdAt := 1,
          updatedAt := 2, finalizedAt := none, shopifyProductId := "",
          adminUrl := "", previewImageUrl := "/uploads/x.png",
          rawArtworkUrl := "/uploads/x.png" }
        ⟨none, none⟩
        ⟨⟨"", "", "", "", ""⟩, ⟨fun _ => none, fun _ => none, fun _ => .error "e"⟩,
          fun _ => none, fun _ => none, id, none, .ok none,
          .error "no access token", 7⟩).design'.status = "finalized" := by
  have h := finalize_publish_error
    { id := "d2", shopDomain := "s.myshopify.com", prompt := "p",
      productType := "mug", publishImmediately := true,
      status := "preview_ready", artworkPrompt := "a",
      currentDesignAssetId := "", revisionCount := 0, createdAt := 1,
      updatedAt := 2, finalizedAt := none, shopifyProductId := "",
      adminUrl := "", previewImageUrl := "/uploads/x.png",
      rawArtworkUrl := "/uploads/x.png" }
    ⟨none, none⟩
    ⟨⟨"", "", "", "", ""⟩, ⟨fun _ => none, fun _ => none, fun _ => .error "e"⟩,
      fun _ => none, fun _ => none, id, none, .ok none,
      .error "no access token", 7⟩
    "no access token" (by decide) rfl (by decide)
  exact ⟨h.1, h.2.1, h.2.2.2.2.1⟩

/-! ## `finalizedAt` write sites (claim C6) -/

/-- C6 counterexample: a design that reached only `"finalized"` (publish
had failed) carries `finalizedAt = 100`; running finalize again at time
200 passes the entry guard (which only stops `published` designs) and
overwrites `finalizedAt` with 200 — the field is assigned a second
time. -/
theorem finalizedAt_rewritten_counterexample :
    ({ id := "d3", shopDomain := "s.myshopify.com", prompt := "p",
       productType := "mug", publishImmediately := false,
       status := "finalized", artworkPrompt := "a",
       currentDesignAssetId := "", revisionCount := 0, createdAt := 1,
       updatedAt := 100, finalizedAt := some 100, shopifyProductId := "",
       adminUrl := "", previewImageUrl := "/uploads/x.png",
       rawArtworkUrl := "/uploads/x.png" } : Design).finalizedAt = some 100 ∧
    (finalizeRun
        { id := "d3", shopDomain := "s.myshopify.com", prompt := "p",
          productType := "mug", publishImmediately := false,
          status := "finalized", artworkPrompt := "a",
          currentDesignAssetId := "", revisionCount := 0, createdAt := 1,
          updatedAt := 100, finalizedAt := some 100, shopifyProductId := "",
          adminUrl := "", previewImageUrl := "/uploads/x.png",
          rawArtworkUrl := "/uploads/x.png" }
        ⟨none, none⟩
        ⟨⟨"", "", "", "", ""⟩, ⟨fun _ => none, fun _ => none, fun _ => .error "e"⟩,
          fun _ => none, fun _ => none, id, none, .ok none,
          .error "no access token", 200⟩).design'.finalizedAt = some 200 ∧
    (some 200 : Option Nat) ≠ some 100 := by
  refine ⟨rfl, ?_, by decide⟩
  rfl

/-- C6 (amended): `finalizedAt` is assigned only by finalize's final
status update.  The published-design guard leaves it untouched, and
neither revise nor retry-publish ever writes it; but finalize on a design
that is not yet `published` stamps it unconditionally, so a repeated
finalize of a merely-`finalized` design assigns it again — the field is
not write-once. -/
theorem finalizedAt_write_sites :
    (∀ (design : Design) req env, design.status = "published" →
      design.shopifyProductId ≠ "" →
      (finalizeRun design req env).design'.finalizedAt = design.finalizedAt) ∧
    (∀ (design : Design) amendment env,
      (reviseRun design amendment env).design'.finalizedAt = design.finalizedAt) ∧
    (∀ (design : Design) pi env,
      (retryPublishRun design pi env).design'.finalizedAt = design.finalizedAt) ∧
    (∀ (design : Design) req env, design.status ≠ "published" →
      (finalizeRun design req env).design'.finalizedAt = some env.now) := by
  refine ⟨?_, ?_, ?_, ?_⟩
  · intro design req env h1 h2
    unfold finalizeRun
    rw [if_pos ⟨h1, h2⟩]
  · intro design amendment env
    unfold reviseRun
    dsimp only
    split
    · split <;> split <;> rfl
    · rfl
  · intro design pi env
    unfold retryPublishRun
    split
    · rfl
    · dsimp only
      cases env.publishOutcome <;> rfl
  · intro design req env hguard
    have hguard' : ¬(design.status = "published" ∧ design.shopifyProductId ≠ "") :=
      fun hc => hguard hc.1
    unfold finalizeRun
    rw [if_neg hguard']
    dsimp only
    cases env.publishOutcome <;> rfl

/-- Witness for C6 (amended) at concrete designs and environments. -/
theorem finalizedAt_write_sites_witness :
    (finalizeRun
        { id := "w1", shopDomain := "s", prompt := "p", productType := "mug",
          publishImmediately := false, status := "published",
          artworkPrompt := "a", currentDesignAssetId := "",
          revisionCount := 0, createdAt := 1, updatedAt := 2,
          finalizedAt := some 2, shopifyProductId := "P",
          adminUrl := "U", previewImageUrl := "x", rawArtworkUrl := "x" }
        ⟨none, none⟩
        ⟨⟨"", "", "", "", ""⟩, ⟨fun _ => none, fun _ => none, fun _ => .error "e"⟩,
          fun _ => none, fun _ => none, id, none, .ok none, .error "t", 9⟩).design'.finalizedAt =
      ({ id := "w1", shopDomain := "s", prompt := "p", productType := "mug",
          publishImmediately := false, status := "published",
          artworkPrompt := "a", currentDesignAssetId := "",
          revisionCount := 0, createdAt := 1, updatedAt := 2,
          finalizedAt := some 2, shopifyProductId := "P",
          adminUrl := "U", previewImageUrl := "x", rawArtworkUrl := "x" } : Design).finalizedAt ∧
    (reviseRun
        { id := "w2", shopDomain := "s", prompt := "p", productType := "mug",
          publishImmediately := false, status := "preview_ready",
          artworkPrompt := "a", currentDesignAssetId := "",
          revisionCount := 1, createdAt := 1, updatedAt := 2,
          finalizedAt := some 2, shopifyProductId := "",
          adminUrl := "", previewImageUrl := "x", rawArtworkUrl := "x" }
        "make it blue"
        ⟨⟨"", "", "", "", ""⟩, ⟨none, none, .error "e"⟩, ⟨none, none, .error "e"⟩,
          "asset-1", 9⟩).design'.finalizedAt =
      ({ id := "w2", shopDomain := "s", prompt := "p", productType := "mug",
          publishImmediately := false, status := "preview_ready",
          artworkPrompt := "a", currentDesignAssetId := "",
          revisionCount := 1, createdAt := 1, updatedAt := 2,
          finalizedAt := some 2, shopifyProductId := "",
          adminUrl := "", previewImageUrl := "x", rawArtworkUrl := "x" } : Design).finalizedAt ∧
    (retryPublishRun
        { id := "w3", shopDomain := "s", prompt := "p", productType := "mug",
          publishImmediately := false, status := "finalized",
          artworkPrompt := "a", currentDesignAssetId := "",
          revisionCount := 0, createdAt := 1, updatedAt := 2,
          finalizedAt := some 2, shopifyProductId := "",
          adminUrl := "", previewImageUrl := "x", rawArtworkUrl := "x" }
        none
        ⟨⟨"", "", "", "", ""⟩, [], .ok none, .ok ⟨"P2", "U2"⟩, 9⟩).design'.finalizedAt =
      ({ id := "w3", shopDomain := "s", prompt := "p", productType := "mug",
          publishImmediately := false, status := "finalized",
          artworkPrompt := "a", currentDesignAssetId := "",
          revisionCount := 0, createdAt := 1, updatedAt := 2,
          finalizedAt := some 2, shopifyProductId := "",
          adminUrl := "", previewImageUrl := "x", rawArtworkUrl := "x" } : Design).finalizedAt ∧
    (finalizeRun
        { id := "w4", shopDomain := "s", prompt := "p", productType := "mug",
          publishImmediately := false, status := "finalized",
          artworkPrompt := "a", currentDesignAssetId := "",
          revisionCount := 0, createdAt := 1, updatedAt := 2,
          finalizedAt := some 2, shopifyProductId := "",
          adminUrl := "", previewImageUrl := "x", rawArtworkUrl := "x" }
        ⟨none, none⟩
        ⟨⟨"", "", "", "", ""⟩, ⟨fun _ => none, fun _ => none, fun _ => .error "e"⟩,
          fun _ => none, fun _ => none, id, none, .ok none, .error "t", 9⟩).design'.finalizedAt =
      some 9 :=
  ⟨finalizedAt_write_sites.1 _ _ _ rfl (by decide),
   finalizedAt_write_sites.2.1 _ _ _,
   finalizedAt_write_sites.2.2.1 _ _ _,
   finalizedAt_write_sites.2.2.2 _ _ _ (by decide)⟩

/-! ## Lifestyle slots survive to the finalize response (claim C9) -/

theorem finalizeFallbackLoop_unusable (k prev : String) (env : FinalizeEnv)
    (h : isUsableApiKey k = false) :
    ∀ ps i, finalizeFallbackLoop k prev env ps i = ([], []) := by
  intro ps
  induction ps with
  | nil => intro i; rfl
  | cons p rest ih =>
      intro i
      rw [finalizeFallbackLoop]
      simp [generateOpenAiImageEdit, generateOpenAiImage, h, ih (i + 1)]

theorem finalizeLifestyleStage_slots (design : Design) (req : FinalizeReq)
    (env : FinalizeEnv) (p1 p2 p3 : String)
    (hreq : req.lifestylePrompts = some [p1, p2, p3])
    (ht1 : jsTrim p1 = p1) (hn1 : p1 ≠ "")
    (ht2 : jsTrim p2 = p2) (hn2 : p2 ≠ "")
    (ht3 : jsTrim p3 = p3) (hn3 : p3 ≠ "")
    (hopen : isUsableApiKey env.settings.openAiApiKey = false)
    (hkei : isUsableApiKey env.settings.keiAiApiKey = true) :
    (finalizeLifestyleStage design req env).images =
      [persistImageUrl env.persistFetch (kieSlot env.lifestyle 0 p1),
       persistImageUrl env.persistFetch (kieSlot env.lifestyle 1 p2),
       persistImageUrl env.persistFetch (kieSlot env.lifestyle 2 p3)] := by
  have hprompts : requestedPrompts (some [p1, p2, p3]) = [p1, p2, p3] := by
    simp [requestedPrompts, ht1, ht2, ht3, hn1, hn2, hn3]
  have hreq' : requestedPrompts req.lifestylePrompts = [p1, p2, p3] := by
    rw [hreq, hprompts]
  have hloop : lifestyleKieLoop env.lifestyle [p1, p2, p3] 0 =
      ([kieSlot env.lifestyle 0 p1, kieSlot env.lifestyle 1 p2,
        kieSlot env.lifestyle 2 p3],
       [.kieRequest, .kieRequest, .kieRequest]) := rfl
  have hrun1 : generateLifestyleImages design.productType design.previewImageUrl
      env.settings.openAiApiKey env.settings.keiAiApiKey (some [p1, p2, p3])
      env.lifestyle =
      ({ imageUrls := [kieSlot env.lifestyle 0 p1, kieSlot env.lifestyle 1 p2,
           kieSlot env.lifestyle 2 p3],
         provider :=
           if [kieSlot env.lifestyle 0 p1, kieSlot env.lifestyle 1 p2,
               kieSlot env.lifestyle 2 p3].any
               (fun url => jsIncludes url "via.placeholder.com") then
             "mixed-fallback" else "kie",
         providerMessage :=
           if [kieSlot env.lifestyle 0 p1, kieSlot env.lifestyle 1 p2,
               kieSlot env.lifestyle 2 p3].any
               (fun url => jsIncludes url "via.placeholder.com") then
             "Some lifestyle images fell back due to provider errors."
           else "Live KEI lifestyle generation used." },
       [.kieRequest, .kieRequest, .kieRequest]) := by
    unfold generateLifestyleImages
    rw [hprompts]
    simp [hopen, hkei, hloop]
  unfold finalizeLifestyleStage
  rw [hreq']
  simp only [hrun1]
  by_cases hhf : ([kieSlot env.lifestyle 0 p1, kieSlot env.lifestyle 1 p2,
      kieSlot env.lifestyle 2 p3].any
      (fun url => jsIncludes url "via.placeholder.com")) = true
  · simp only [hhf, if_true]
    have hfb := finalizeFallbackLoop_unusable env.settings.openAiApiKey
      design.previewImageUrl env hopen [p1, p2, p3] 0
    simp [hfb]
  · simp only [hhf, Bool.false_eq_true, if_false]
    simp

/-- C9: a finalize call that requests three (trimmed, non-blank) scene
prompts, with the primary image provider unconfigured and the secondary
(KIE) provider configured, yields a response whose `lifestyleImages` has
exactly the three per-prompt slots — each failed slot filled by the
(persisted) placeholder, each successful slot by the (persisted) provider
image — and, when the publish step succeeds with a non-empty product id,
a non-null `productId`.  In particular generation failing for 2 of the 3
scenes still produces 3 images. -/
theorem finalize_partial_lifestyle_publish (design : Design)
    (req : FinalizeReq) (env : FinalizeEnv) (p1 p2 p3 pid purl : String)
    (hreq : req.lifestylePrompts = some [p1, p2, p3])
    (ht1 : jsTrim p1 = p1) (hn1 : p1 ≠ "")
    (ht2 : jsTrim p2 = p2) (hn2 : p2 ≠ "")
    (ht3 : jsTrim p3 = p3) (hn3 : p3 ≠ "")
    (hguard : design.status ≠ "published")
    (hopen : isUsableApiKey env.settings.openAiApiKey = false)
    (hkei : isUsableApiKey env.settings.keiAiApiKey = true)
    (hpub : env.publishOutcome = .ok ⟨pid, purl⟩) (hpid : pid ≠ "") :
    (finalizeRun design req env).response.lifestyleImages =
      [persistImageUrl env.persistFetch (kieSlot env.lifestyle 0 p1),
       persistImageUrl env.persistFetch (kieSlot env.lifestyle 1 p2),
       persistImageUrl env.persistFetch (kieSlot env.lifestyle 2 p3)] ∧
    (finalizeRun design req env).response.lifestyleImages.length = 3 ∧
    (finalizeRun design req env).response.productId = some pid := by
  have hguard' : ¬(design.status = "published" ∧ design.shopifyProductId ≠ "") :=
    fun hc => hguard hc.1
  have hstage := finalizeLifestyleStage_slots design req env p1 p2 p3 hreq
    ht1 hn1 ht2 hn2 ht3 hn3 hopen hkei
  have hresp1 : (finalizeRun design req env).response.lifestyleImages =
      (finalizeLifestyleStage design req env).images := by
    unfold finalizeRun
    rw [if_neg hguard']
  refine ⟨?_, ?_, ?_⟩
  · rw [hresp1, hstage]
  · rw [hresp1, hstage]
    rfl
  · unfold finalizeRun
    rw [if_neg hguard']
    simp [hpub, hpid]

/-- Witness for C9: three concrete prompts, KIE failing on scenes 1 and 3
and succeeding on scene 2, and a successful publish. -/
theorem finalize_partial_lifestyle_publish_witness :
    (finalizeRun
        { id := "d9", shopDomain := "s", prompt := "p", productType := "mug",
          publishImmediately := false, status := "mockup_ready",
          artworkPrompt := "a", currentDesignAssetId := "",
          revisionCount := 0, createdAt := 1, updatedAt := 2,
          finalizedAt := none, shopifyProductId := "", adminUrl := "",
          previewImageUrl := "/uploads/x.png", rawArtworkUrl := "/uploads/x.png" }
        ⟨none, some ["scene one", "scene two", "scene three"]⟩
        ⟨⟨"", "kie-live-key", "", "", ""⟩,
          ⟨fun _ => none, fun _ => none,
            fun i => if i = 1 then .ok "https://kie/1.png" else .error "E"⟩,
          fun _ => none, fun _ => none, id, none, .ok none,
          .ok ⟨"gid://shopify/Product/9", "https://admin/9"⟩, 5⟩).response.lifestyleImages.length = 3 ∧
    (finalizeRun
        { id := "d9", shopDomain := "s", prompt := "p", productType := "mug",
          publishImmediately := false, status := "mockup_ready",
          artworkPrompt := "a", currentDesignAssetId := "",
          revisionCount := 0, createdAt := 1, updatedAt := 2,
          finalizedAt := none, shopifyProductId := "", adminUrl := "",
          previewImageUrl := "/uploads/x.png", rawArtworkUrl := "/uploads/x.png" }
        ⟨none, some ["scene one", "scene two", "scene three"]⟩
        ⟨⟨"", "kie-live-key", "", "", ""⟩,
          ⟨fun _ => none, fun _ => none,
            fun i => if i = 1 then .ok "https://kie/1.png" else .error "E"⟩,
          fun _ => none, fun _ => none, id, none, .ok none,
          .ok ⟨"gid://shopify/Product/9", "https://admin/9"⟩, 5⟩).response.productId =
      some "gid://shopify/Product/9" := by
  have h := finalize_partial_lifestyle_publish
    { id := "d9", shopDomain := "s", prompt := "p", productType := "mug",
      publishImmediately := false, status := "mockup_ready",
      artworkPrompt := "a", currentDesignAssetId := "",
      revisionCount := 0, createdAt := 1, updatedAt := 2,
      finalizedAt := none, shopifyProductId := "", adminUrl := "",
      previewImageUrl := "/uploads/x.png", rawArtworkUrl := "/uploads/x.png" }
    ⟨none, some ["scene one", "scene two", "scene three"]⟩
    ⟨⟨"", "kie-live-key", "", "", ""⟩,
      ⟨fun _ => none, fun _ => none,
        fun i => if i = 1 then .ok "https://kie/1.png" else .error "E"⟩,
      fun _ => none, fun _ => none, id, none, .ok none,
      .ok ⟨"gid://shopify/Product/9", "https://admin/9"⟩, 5⟩
    "scene one" "scene two" "scene three" "gid://shopify/Product/9"
    "https://admin/9" rfl (by decide) (by decide) (by decide) (by decide)
    (by decide) (by decide) (by decide) (by decide) (by decide) rfl (by decide)
  exact ⟨h.2.1, h.2.2⟩

end PodApp
